import Mathlib

/-! Neko agent: session lifecycle and desktop control backend.

A shallow embedding of the Go sources of the agent (single-identity) mode:

* `pkg/desktop/backend.go`: button and modifier constants;
* `pkg/darwin/darwin.go`, `pkg/darwin/keymap.go`: the automation-library backend;
* `internal/desktop/manager.go`, `internal/desktop/xorg.go`: the desktop manager;
* `internal/agent/session.go`: the single-session manager and its session.

Conventions. A method with a pointer receiver becomes a function from the
receiver's value to the new value, paired with what the method returns.
`time.Now()` is an explicit argument `now` (nanoseconds, as `time.Duration`
counts them). Calls that leave the process (the automation library, the event
emitter, a peer) are appended to a log field of the receiver, so that the
order and the number of such calls can be stated. An `error` is `Option` of
an error value, `none` standing for `nil`.
-/

namespace Neko

/-! ## Go maps -/

/-- Lookup `m[k]` with the comma-ok idiom: `none` when the key is absent. -/
def mapGet {κ ν : Type} [DecidableEq κ] (m : List (κ × ν)) (k : κ) : Option ν :=
  match m with
  | [] => none
  | e :: rest => if e.1 = k then some e.2 else mapGet rest k

/-- Removal `delete(m, k)`. -/
def mapDelete {κ ν : Type} [DecidableEq κ] (m : List (κ × ν)) (k : κ) : List (κ × ν) :=
  m.filter (fun e => decide (e.1 ≠ k))

/-- Assignment `m[k] = v`: the binding of `k`, if any, is replaced. -/
def mapSet {κ ν : Type} [DecidableEq κ] (m : List (κ × ν)) (k : κ) (v : ν) : List (κ × ν) :=
  mapDelete m k ++ [(k, v)]

/-! ## `pkg/desktop/backend.go` -/

def ButtonLeft : Nat := 1
def ButtonMiddle : Nat := 2
def ButtonRight : Nat := 3
def ButtonScrollUp : Nat := 4
def ButtonScrollDown : Nat := 5

def ModShift : Nat := 1
def ModCapsLock : Nat := 2
def ModControl : Nat := 4
def ModAlt : Nat := 8
def ModNumLock : Nat := 16
def ModMeta : Nat := 32
def ModSuper : Nat := 64
def ModAltGr : Nat := 128

/-- One second as a `time.Duration` (nanoseconds). -/
def Second : Nat := 1000000000

/-- Modelled from the spec: `types.ScreenSize` (package `pkg/types` is not among the
sources): width, height and refresh rate. -/
structure ScreenSize where
  Width : Int
  Height : Int
  Rate : Int
  deriving DecidableEq, Repr

/-- The `desktop.ScreenConfiguration` struct; `Rates` is a Go map. -/
structure ScreenConfiguration where
  Width : Int
  Height : Int
  Rates : List (Int × Int)
  deriving DecidableEq, Repr

/-- The errors the backends construct, one constructor per message format. -/
inductive BackendError where
  /-- Message "button %d already pressed". -/
  | buttonAlreadyPressed (code : Nat)
  /-- Message "button %d not pressed". -/
  | buttonNotPressed (code : Nat)
  /-- Message "unknown button code: %d". -/
  | unknownButtonCode (code : Nat)
  /-- Message "key %d already pressed". -/
  | keyAlreadyPressed (code : Nat)
  /-- Message "key %d not pressed". -/
  | keyNotPressed (code : Nat)
  /-- Message "unknown keycode: %d". -/
  | unknownKeycode (code : Nat)
  /-- Message "changing screen resolution not supported on macOS". -/
  | resolutionNotSupported
  /-- Message "failed to capture screen". -/
  | captureFailed
  /-- An error produced by a function that is not among the sources. -/
  | foreign (msg : String)
  deriving DecidableEq, Repr

/-! ## `pkg/darwin/keymap.go` -/

/-- The literal `keymap` of `convertKeycode`. -/
def keymap : List (Nat × String) := [
  (0x0061, "a"), (0x0041, "a"), (0x0062, "b"), (0x0042, "b"),
  (0x0063, "c"), (0x0043, "c"), (0x0064, "d"), (0x0044, "d"),
  (0x0065, "e"), (0x0045, "e"), (0x0066, "f"), (0x0046, "f"),
  (0x0067, "g"), (0x0047, "g"), (0x0068, "h"), (0x0048, "h"),
  (0x0069, "i"), (0x0049, "i"), (0x006a, "j"), (0x004a, "j"),
  (0x006b, "k"), (0x004b, "k"), (0x006c, "l"), (0x004c, "l"),
  (0x006d, "m"), (0x004d, "m"), (0x006e, "n"), (0x004e, "n"),
  (0x006f, "o"), (0x004f, "o"), (0x0070, "p"), (0x0050, "p"),
  (0x0071, "q"), (0x0051, "q"), (0x0072, "r"), (0x0052, "r"),
  (0x0073, "s"), (0x0053, "s"), (0x0074, "t"), (0x0054, "t"),
  (0x0075, "u"), (0x0055, "u"), (0x0076, "v"), (0x0056, "v"),
  (0x0077, "w"), (0x0057, "w"), (0x0078, "x"), (0x0058, "x"),
  (0x0079, "y"), (0x0059, "y"), (0x007a, "z"), (0x005a, "z"),
  (0x0030, "0"), (0x0029, "0"), (0x0031, "1"), (0x0021, "1"),
  (0x0032, "2"), (0x0040, "2"), (0x0033, "3"), (0x0023, "3"),
  (0x0034, "4"), (0x0024, "4"), (0x0035, "5"), (0x0025, "5"),
  (0x0036, "6"), (0x005e, "6"), (0x0037, "7"), (0x0026, "7"),
  (0x0038, "8"), (0x002a, "8"), (0x0039, "9"), (0x0028, "9"),
  (0xff08, "backspace"), (0xff09, "tab"), (0xff0d, "enter"), (0xff13, "pause"),
  (0xff14, "scrolllock"), (0xff1b, "escape"), (0xffff, "delete"), (0xff50, "home"),
  (0xff51, "left"), (0xff52, "up"), (0xff53, "right"), (0xff54, "down"),
  (0xff55, "pageup"), (0xff56, "pagedown"), (0xff57, "end"), (0xff63, "insert"),
  (0xffbe, "f1"), (0xffbf, "f2"), (0xffc0, "f3"), (0xffc1, "f4"),
  (0xffc2, "f5"), (0xffc3, "f6"), (0xffc4, "f7"), (0xffc5, "f8"),
  (0xffc6, "f9"), (0xffc7, "f10"), (0xffc8, "f11"), (0xffc9, "f12"),
  (0xffe1, "shift"), (0xffe2, "rshift"), (0xffe3, "ctrl"), (0xffe4, "rctrl"),
  (0xffe5, "capslock"), (0xffe7, "lcmd"), (0xffe8, "rcmd"), (0xffe9, "alt"),
  (0xffea, "ralt"), (0xffeb, "cmd"), (0xffec, "rcmd"), (0x0020, "space"),
  (0x0027, "'"), (0x002c, ","), (0x002d, "-"), (0x002e, "."),
  (0x002f, "/"), (0x003b, ";"), (0x003d, "="), (0x005b, "["),
  (0x005c, "\\"), (0x005d, "]"), (0x0060, "`"), (0xff80, " "),
  (0xff8d, "num_enter"), (0xff95, "num_home"), (0xff96, "num_left"), (0xff97, "num_up"),
  (0xff98, "num_right"), (0xff99, "num_down"), (0xff9a, "num_pgup"), (0xff9b, "num_pgdn"),
  (0xff9c, "num_end"), (0xff9e, "num_ins"), (0xff9f, "num_del"), (0xffaa, "num*"),
  (0xffab, "num+"), (0xffad, "num-"), (0xffae, "num."), (0xffaf, "num/"),
  (0xffb0, "num0"), (0xffb1, "num1"), (0xffb2, "num2"), (0xffb3, "num3"),
  (0xffb4, "num4"), (0xffb5, "num5"), (0xffb6, "num6"), (0xffb7, "num7"),
  (0xffb8, "num8"), (0xffb9, "num9"), (0x1008ff11, "audio_vol_down"), (0x1008ff12, "audio_vol_mute"),
  (0x1008ff13, "audio_vol_up"), (0x1008ff14, "audio_play"), (0x1008ff15, "audio_stop"), (0x1008ff16, "audio_prev"),
  (0x1008ff17, "audio_next")
]

/-- The function `convertKeycode`: the table entry, or the empty string. -/
def convertKeycode (code : Nat) : String :=
  match mapGet keymap code with
  | some key => key
  | none => ""

/-! ## `pkg/darwin/darwin.go` -/

/-- A call into the automation library (`robotgo`) that acts on the desktop. -/
inductive RobotCall where
  | Move (x y : Int)
  | Toggle (button direction : String)
  | KeyToggle (key direction : String)
  | KeyTap (key : String)
  | Scroll (x y : Int)
  | ScrollSmooth (x y : Int)
  | WriteAll (text : String)
  deriving DecidableEq, Repr

/-- The struct `DarwinBackend`; `robot` logs the automation-library calls made so far. -/
structure DarwinBackend where
  display : String
  screenSize : ScreenSize
  debounceButton : List (Nat × Nat)
  debounceKey : List (Nat × Nat)
  keyboardModifiers : Nat
  robot : List RobotCall
  deriving DecidableEq, Repr

namespace DarwinBackend

/-- The constructor `NewBackend`. -/
def NewBackend : DarwinBackend :=
  { display := ""
    screenSize := { Width := 0, Height := 0, Rate := 0 }
    debounceButton := []
    debounceKey := []
    keyboardModifiers := 0
    robot := [] }

/-- Append one automation-library call to the log. -/
def call (d : DarwinBackend) (c : RobotCall) : DarwinBackend :=
  { d with robot := d.robot ++ [c] }

/-- Method `Init`; `screen` is what `robotgo.GetScreenSize()` answers. `checkPermissions`
always returns nil. -/
def Init (d : DarwinBackend) (display : String) (screen : Int × Int) :
    Option BackendError × DarwinBackend :=
  (none, { d with display := display
                  screenSize := { Width := screen.1, Height := screen.2, Rate := 60 } })

/-- Method `GetScreenSize`; `screen` is what `robotgo.GetScreenSize()` answers. -/
def GetScreenSize (d : DarwinBackend) (screen : Int × Int) : ScreenSize × DarwinBackend :=
  let size : ScreenSize := { d.screenSize with Width := screen.1, Height := screen.2 }
  (size, { d with screenSize := size })

/-- Method `SetScreenSize`: the current size and always an error. -/
def SetScreenSize (d : DarwinBackend) (_size : ScreenSize) (screen : Int × Int) :
    (ScreenSize × Option BackendError) × DarwinBackend :=
  let r := d.GetScreenSize screen
  ((r.1, some BackendError.resolutionNotSupported), r.2)

/-- Method `Move`. -/
def Move (d : DarwinBackend) (x y : Int) : DarwinBackend :=
  d.call (.Move x y)

/-- Method `Scroll`; the deferred release of "ctrl" runs last. -/
def Scroll (d : DarwinBackend) (deltaX deltaY : Int) (controlKey : Bool) : DarwinBackend :=
  let d1 := if controlKey then d.call (.KeyToggle "ctrl" "down") else d
  let d2 := if deltaY ≠ 0 then d1.call (.Scroll 0 deltaY) else d1
  let d3 := if deltaX ≠ 0 then d2.call (.ScrollSmooth deltaX 0) else d2
  if controlKey then d3.call (.KeyToggle "ctrl" "up") else d3

/-- Method `ButtonDown`. -/
def ButtonDown (d : DarwinBackend) (code : Nat) (now : Nat) :
    Option BackendError × DarwinBackend :=
  match mapGet d.debounceButton code with
  | some _ => (some (.buttonAlreadyPressed code), d)
  | none =>
    let d1 := { d with debounceButton := mapSet d.debounceButton code now }
    if code = ButtonLeft then (none, d1.call (.Toggle "left" "down"))
    else if code = ButtonMiddle then (none, d1.call (.Toggle "center" "down"))
    else if code = ButtonRight then (none, d1.call (.Toggle "right" "down"))
    else (some (.unknownButtonCode code), d1)

/-- Method `ButtonUp`. -/
def ButtonUp (d : DarwinBackend) (code : Nat) : Option BackendError × DarwinBackend :=
  match mapGet d.debounceButton code with
  | none => (some (.buttonNotPressed code), d)
  | some _ =>
    let d1 := { d with debounceButton := mapDelete d.debounceButton code }
    if code = ButtonLeft then (none, d1.call (.Toggle "left" "up"))
    else if code = ButtonMiddle then (none, d1.call (.Toggle "center" "up"))
    else if code = ButtonRight then (none, d1.call (.Toggle "right" "up"))
    else (some (.unknownButtonCode code), d1)

/-- Method `KeyDown`. -/
def KeyDown (d : DarwinBackend) (code : Nat) (now : Nat) :
    Option BackendError × DarwinBackend :=
  match mapGet d.debounceKey code with
  | some _ => (some (.keyAlreadyPressed code), d)
  | none =>
    let d1 := { d with debounceKey := mapSet d.debounceKey code now }
    let key := convertKeycode code
    if key = "" then (some (.unknownKeycode code), d1)
    else (none, d1.call (.KeyToggle key "down"))

/-- Method `KeyUp`. -/
def KeyUp (d : DarwinBackend) (code : Nat) : Option BackendError × DarwinBackend :=
  match mapGet d.debounceKey code with
  | none => (some (.keyNotPressed code), d)
  | some _ =>
    let d1 := { d with debounceKey := mapDelete d.debounceKey code }
    let key := convertKeycode code
    if key = "" then (some (.unknownKeycode code), d1)
    else (none, d1.call (.KeyToggle key "up"))

/-- The release loop of `ResetKeys`: one "up" per pressed key that has a native name. -/
def releaseKeys (robot : List RobotCall) : List (Nat × Nat) → List RobotCall
  | [] => robot
  | e :: rest =>
    let key := convertKeycode e.1
    if key ≠ "" then releaseKeys (robot ++ [.KeyToggle key "up"]) rest
    else releaseKeys robot rest

/-- Method `ResetKeys`. -/
def ResetKeys (d : DarwinBackend) : DarwinBackend :=
  { d with robot := releaseKeys d.robot d.debounceKey
           debounceKey := []
           debounceButton := []
           keyboardModifiers := 0 }

/-- The native key of a modifier in `SetKeyboardModifier`, `none` in the default case. -/
def modifierKey (mod : Nat) : Option String :=
  if mod = ModShift then some "shift"
  else if mod = ModControl then some "ctrl"
  else if mod = ModAlt then some "alt"
  else if mod = ModSuper then some "cmd"
  else none

/-- Method `SetKeyboardModifier`; `mod` and the field are `uint8`, and `&^` clears bits. -/
def SetKeyboardModifier (d : DarwinBackend) (mod : Nat) (active : Bool) : DarwinBackend :=
  match modifierKey mod with
  | none => d
  | some key =>
    if active then
      { d.call (.KeyToggle key "down") with
        keyboardModifiers := (d.keyboardModifiers ||| mod) % 256 }
    else
      { d.call (.KeyToggle key "up") with
        keyboardModifiers := (d.keyboardModifiers &&& (255 ^^^ (mod % 256))) % 256 }

/-- Method `GetKeyboardModifiers`. -/
def GetKeyboardModifiers (d : DarwinBackend) : Nat :=
  d.keyboardModifiers

/-- Method `KeyPress`: taps each key, stopping at the first unknown code. -/
def KeyPress (d : DarwinBackend) : List Nat → Option BackendError × DarwinBackend
  | [] => (none, d)
  | code :: rest =>
    let key := convertKeycode code
    if key = "" then (some (.unknownKeycode code), d)
    else KeyPress (d.call (.KeyTap key)) rest

/-- Method `SetClipboard`. -/
def SetClipboard (d : DarwinBackend) (text : String) : DarwinBackend :=
  d.call (.WriteAll text)

end DarwinBackend

/-- A call of a `DarwinBackend` method that can change the backend, with its arguments
(and the clock or the screen the call reads). The getters `GetScreenConfigurations`,
`TakeScreenshot`, `GetCursorPosition`, `GetKeyboardModifiers`, `GetClipboard` and
`Shutdown` assign no field. -/
inductive DarwinOp where
  | Init (display : String) (screen : Int × Int)
  | GetScreenSize (screen : Int × Int)
  | SetScreenSize (size : ScreenSize) (screen : Int × Int)
  | Move (x y : Int)
  | Scroll (deltaX deltaY : Int) (controlKey : Bool)
  | ButtonDown (code now : Nat)
  | ButtonUp (code : Nat)
  | KeyDown (code now : Nat)
  | KeyUp (code : Nat)
  | ResetKeys
  | SetKeyboardModifier (mod : Nat) (active : Bool)
  | KeyPress (codes : List Nat)
  | SetClipboard (text : String)
  | Getter
  deriving DecidableEq, Repr

/-- The backend after one call. -/
def DarwinBackend.step (d : DarwinBackend) : DarwinOp → DarwinBackend
  | .Init display screen => (d.Init display screen).2
  | .GetScreenSize screen => (d.GetScreenSize screen).2
  | .SetScreenSize size screen => (d.SetScreenSize size screen).2
  | .Move x y => d.Move x y
  | .Scroll dx dy ctrl => d.Scroll dx dy ctrl
  | .ButtonDown code now => (d.ButtonDown code now).2
  | .ButtonUp code => (d.ButtonUp code).2
  | .KeyDown code now => (d.KeyDown code now).2
  | .KeyUp code => (d.KeyUp code).2
  | .ResetKeys => d.ResetKeys
  | .SetKeyboardModifier mod active => d.SetKeyboardModifier mod active
  | .KeyPress codes => (d.KeyPress codes).2
  | .SetClipboard text => d.SetClipboard text
  | .Getter => d

/-- The backend after a sequence of calls, first call first. -/
def DarwinBackend.run (d : DarwinBackend) (ops : List DarwinOp) : DarwinBackend :=
  ops.foldl DarwinBackend.step d

/-! ## `pkg/xorg/backend.go` -/

/-- Modelled from the spec: the package-level pressed-input registries of `pkg/xorg`
(the Linux sources of the package other than `backend.go` are not among the files):
"a registry of currently-pressed button codes and key codes each with a press
timestamp (used for debounce)". -/
structure XorgPackage where
  debounceButton : List (Nat × Nat)
  debounceKey : List (Nat × Nat)
  deriving DecidableEq, Repr

/-- Modelled from the spec: `xorg.CheckKeys` on Linux (only its Darwin stub is among the
sources): the sweep "force-releases any key or button whose hold duration exceeds a
debounce threshold"; every other entry is kept. -/
def XorgPackage.CheckKeys (x : XorgPackage) (duration now : Nat) : XorgPackage :=
  { debounceButton := x.debounceButton.filter (fun e => decide (¬ (now - e.2 > duration)))
    debounceKey := x.debounceKey.filter (fun e => decide (¬ (now - e.2 > duration))) }

/-- The struct `XorgBackend`, with the package state its methods drive. -/
structure XorgBackend where
  display : String
  screenSize : ScreenSize
  pkg : XorgPackage
  deriving DecidableEq, Repr

/-- What the platform answers during one call: `screen` is `robotgo.GetScreenSize()`,
`change` is the result of `xorg.ChangeScreenSize` (not among the sources). -/
structure Host where
  screen : Int × Int
  change : ScreenSize × Option BackendError
  deriving DecidableEq, Repr

/-- Method `XorgBackend.GetScreenSize`: the cached value. -/
def XorgBackend.GetScreenSize (x : XorgBackend) : ScreenSize :=
  x.screenSize

/-- Method `XorgBackend.SetScreenSize`. -/
def XorgBackend.SetScreenSize (x : XorgBackend) (_size : ScreenSize) (host : Host) :
    (ScreenSize × Option BackendError) × XorgBackend :=
  match host.change.2 with
  | none => (host.change, { x with screenSize := host.change.1 })
  | some _ => (host.change, x)

/-! ## `internal/desktop/manager.go`, `internal/desktop/xorg.go` -/

/-- The value of `runtime.GOOS`. -/
inductive GOOS where
  | darwin
  | linux
  | other (name : String)
  deriving DecidableEq, Repr

/-- A value of the interface `desktop.Backend`: one of its two implementations. -/
inductive Backend where
  | darwin (d : DarwinBackend)
  | xorg (x : XorgBackend)
  deriving DecidableEq, Repr

/-- Dynamic dispatch of `SetScreenSize`. -/
def Backend.SetScreenSize (b : Backend) (size : ScreenSize) (host : Host) :
    (ScreenSize × Option BackendError) × Backend :=
  match b with
  | .darwin d => let r := d.SetScreenSize size host.screen; (r.1, .darwin r.2)
  | .xorg x => let r := x.SetScreenSize size host; (r.1, .xorg r.2)

/-- Dynamic dispatch of `GetScreenSize`. -/
def Backend.GetScreenSize (b : Backend) (host : Host) : ScreenSize × Backend :=
  match b with
  | .darwin d => let r := d.GetScreenSize host.screen; (r.1, .darwin r.2)
  | .xorg x => (x.GetScreenSize, .xorg x)

/-- The fields of `config.Desktop` the manager reads. -/
structure DesktopConfig where
  Display : String
  ScreenSize : ScreenSize
  UseInputDriver : Bool
  InputSocket : String
  Unminimize : Bool
  FileChooserDialog : Bool
  deriving DecidableEq, Repr

/-- The input driver of `New`: `xinput.NewDriver(socket)` or `xinput.NewDummy()`. -/
inductive InputDriver where
  | driver (socket : String)
  | dummy
  deriving DecidableEq, Repr

/-- What a manager call does outside the manager's own fields, in order: the package-level
mutex `mu`, the event emitter, the backend, the input driver, and in `Shutdown` the
channel `shutdown`, the call `replaceClipboardCommand(nil)` and the wait group. -/
inductive DesktopEvent where
  | Lock
  | Unlock
  | Emit (event : String)
  | BackendSetScreenSize (size : ScreenSize)
  | InputDebounce (duration : Nat)
  | BackendResetKeys
  | BackendKeyDown (code : Nat)
  | BackendButtonDown (code : Nat)
  | CloseShutdown
  | ReplaceClipboardCommand
  | WaitGroupWait
  | BackendShutdown
  deriving DecidableEq, Repr

/-- The struct `DesktopManagerCtx`; `trace` logs the events of `DesktopEvent`. -/
structure DesktopManagerCtx where
  config : DesktopConfig
  screenSize : ScreenSize
  backend : Backend
  input : Option InputDriver
  trace : List DesktopEvent
  deriving DecidableEq, Repr

namespace DesktopManagerCtx

/-- The constructor `New`; `none` is the panic on an unsupported operating system. -/
def New (goos : GOOS) (config : DesktopConfig) : Option DesktopManagerCtx :=
  match goos with
  | .darwin =>
    some { config := config, screenSize := config.ScreenSize
           backend := .darwin DarwinBackend.NewBackend, input := none, trace := [] }
  | .linux =>
    some { config := config, screenSize := config.ScreenSize
           backend := .xorg { display := "", screenSize := { Width := 0, Height := 0, Rate := 0 }
                              pkg := { debounceButton := [], debounceKey := [] } }
           input := if config.UseInputDriver then some (.driver config.InputSocket)
                    else some .dummy
           trace := [] }
  | .other _ => none

/-- The value of `runtime.GOOS` in a run whose manager `New` built: `New` picks the
backend by it. -/
def goos (m : DesktopManagerCtx) : GOOS :=
  match m.backend with
  | .darwin _ => .darwin
  | .xorg _ => .linux

/-- Append one event to the trace. -/
def log (m : DesktopManagerCtx) (e : DesktopEvent) : DesktopManagerCtx :=
  { m with trace := m.trace ++ [e] }

/-- The constant `debounceDuration` of `Start`. -/
def debounceDuration : Nat := 10 * Second

/-- One `case <-ticker.C` of the goroutine of `Start`, at clock `now`. -/
def debounceTick (m : DesktopManagerCtx) (now : Nat) : DesktopManagerCtx :=
  match m.backend with
  | .xorg x =>
    let m1 := { m with backend := .xorg { x with pkg := x.pkg.CheckKeys debounceDuration now } }
    match m1.input with
    | some _ => m1.log (.InputDebounce debounceDuration)
    | none => m1
  | .darwin _ => m

/-- Method `SetScreenSize`. The deferred function runs after the body, before the
caller gets the results. -/
def SetScreenSize (m : DesktopManagerCtx) (screenSize : ScreenSize) (host : Host) :
    (ScreenSize × Option BackendError) × DesktopManagerCtx :=
  let m1 := m.log .Lock
  let m2 := m1.log (.Emit "before_screen_size_change")
  let m3 := m2.log (.BackendSetScreenSize screenSize)
  let r := m3.backend.SetScreenSize screenSize host
  let m4 := { m3 with backend := r.2 }
  let m5 := match r.1.2 with
    | none => { m4 with screenSize := r.1.1 }
    | some _ => m4
  let m6 := m5.log (.Emit "after_screen_size_change")
  let m7 := m6.log .Unlock
  (r.1, m7)

/-- Method `GetScreenSize`. -/
def GetScreenSize (m : DesktopManagerCtx) (host : Host) : ScreenSize × DesktopManagerCtx :=
  let r := m.backend.GetScreenSize host
  (r.1, { m with backend := r.2 })

end DesktopManagerCtx

/-- The pressed-key registry of the backend. -/
def Backend.pressedKeys : Backend → List (Nat × Nat)
  | .darwin d => d.debounceKey
  | .xorg x => x.pkg.debounceKey

/-- The pressed-button registry of the backend. -/
def Backend.pressedButtons : Backend → List (Nat × Nat)
  | .darwin d => d.debounceButton
  | .xorg x => x.pkg.debounceButton

/-- A manager on macOS whose backend pressed the key "a" (keysym 97) at clock 0 and the
left button at clock 0, and got no release since. -/
def stuckInputManager : DesktopManagerCtx :=
  { config := { Display := ":0", ScreenSize := { Width := 1920, Height := 1080, Rate := 60 }
                UseInputDriver := false, InputSocket := "", Unminimize := false
                FileChooserDialog := false }
    screenSize := { Width := 1920, Height := 1080, Rate := 60 }
    backend := .darwin ((DarwinBackend.NewBackend.KeyDown 97 0).2.ButtonDown 1 0).2
    input := none
    trace := [] }

/-! ## `internal/desktop/xorg.go`: input gestures, `manager.go`: shutdown -/

/-- The functions of `pkg/xorg` that `XorgBackend` forwards its input methods to; their
Linux bodies are not among the sources, so they are taken as given. -/
structure XorgFunctions where
  KeyDown : XorgPackage → Nat → Nat → Option BackendError × XorgPackage
  ButtonDown : XorgPackage → Nat → Nat → Option BackendError × XorgPackage
  ResetKeys : XorgPackage → XorgPackage

/-- Dynamic dispatch of `KeyDown`. -/
def Backend.KeyDown (b : Backend) (xf : XorgFunctions) (code now : Nat) :
    Option BackendError × Backend :=
  match b with
  | .darwin d => let r := d.KeyDown code now; (r.1, .darwin r.2)
  | .xorg x => let r := xf.KeyDown x.pkg code now; (r.1, .xorg { x with pkg := r.2 })

/-- Dynamic dispatch of `ButtonDown`. -/
def Backend.ButtonDown (b : Backend) (xf : XorgFunctions) (code now : Nat) :
    Option BackendError × Backend :=
  match b with
  | .darwin d => let r := d.ButtonDown code now; (r.1, .darwin r.2)
  | .xorg x => let r := xf.ButtonDown x.pkg code now; (r.1, .xorg { x with pkg := r.2 })

/-- Dynamic dispatch of `ResetKeys`. -/
def Backend.ResetKeys (b : Backend) (xf : XorgFunctions) : Backend :=
  match b with
  | .darwin d => .darwin d.ResetKeys
  | .xorg x => .xorg { x with pkg := xf.ResetKeys x.pkg }

/-- Method `DesktopManagerCtx.KeyDown`. -/
def DesktopManagerCtx.KeyDown (m : DesktopManagerCtx) (xf : XorgFunctions) (code now : Nat) :
    Option BackendError × DesktopManagerCtx :=
  let m1 := m.log (.BackendKeyDown code)
  let r := m1.backend.KeyDown xf code now
  (r.1, { m1 with backend := r.2 })

/-- Method `DesktopManagerCtx.ButtonDown`. -/
def DesktopManagerCtx.ButtonDown (m : DesktopManagerCtx) (xf : XorgFunctions)
    (code now : Nat) : Option BackendError × DesktopManagerCtx :=
  let m1 := m.log (.BackendButtonDown code)
  let r := m1.backend.ButtonDown xf code now
  (r.1, { m1 with backend := r.2 })

/-- Method `DesktopManagerCtx.ResetKeys`. -/
def DesktopManagerCtx.ResetKeys (m : DesktopManagerCtx) (xf : XorgFunctions) :
    DesktopManagerCtx :=
  let m1 := m.log .BackendResetKeys
  { m1 with backend := m1.backend.ResetKeys xf }

/-- The loop of `KeyPress`: `KeyDown` for each code, returning at the first error; the
`i`-th `KeyDown` of the call reads the clock value `clock i`. -/
def DesktopManagerCtx.pressKeys (xf : XorgFunctions) (clock : Nat → Nat)
    (m : DesktopManagerCtx) : List Nat → Nat → Option BackendError × DesktopManagerCtx
  | [], _ => (none, m)
  | code :: rest, i =>
    let r := m.KeyDown xf code (clock i)
    match r.1 with
    | some err => (some err, r.2)
    | none => DesktopManagerCtx.pressKeys xf clock r.2 rest (i + 1)

/-- Method `DesktopManagerCtx.KeyPress`; the deferred `ResetKeys` runs on every return. -/
def DesktopManagerCtx.KeyPress (m : DesktopManagerCtx) (xf : XorgFunctions)
    (clock : Nat → Nat) (codes : List Nat) : Option BackendError × DesktopManagerCtx :=
  let m1 := m.ResetKeys xf
  let r := DesktopManagerCtx.pressKeys xf clock m1 codes 0
  (r.1, r.2.ResetKeys xf)

/-- Method `DesktopManagerCtx.ButtonPress`; the deferred `ResetKeys` runs on return. -/
def DesktopManagerCtx.ButtonPress (m : DesktopManagerCtx) (xf : XorgFunctions)
    (code now : Nat) : Option BackendError × DesktopManagerCtx :=
  let m1 := m.ResetKeys xf
  let r := m1.ButtonDown xf code now
  (r.1, r.2.ResetKeys xf)

/-- Method `DesktopManagerCtx.Shutdown`: its four statements after the log line, in the
order of the source. -/
def DesktopManagerCtx.Shutdown (m : DesktopManagerCtx) :
    Option BackendError × DesktopManagerCtx :=
  let m1 := m.log .CloseShutdown
  let m2 := m1.log .ReplaceClipboardCommand
  let m3 := m2.log .WaitGroupWait
  let m4 := m3.log .BackendShutdown
  (none, m4)

/-- The filter of `ScreenConfigurations`: the rate is skipped when this holds. Go's `%`
truncates towards zero. -/
def irrelevantRate (rate : Int) : Bool :=
  decide (rate > 60) || (decide (rate > 30) && decide (Int.tmod rate 10 ≠ 0))

/-- The inner loop of `ScreenConfigurations` over the rates of one configuration. -/
def appendRates (config : ScreenConfiguration) :
    List ScreenSize → List (Int × Int) → List ScreenSize
  | sizes, [] => sizes
  | sizes, entry :: rest =>
    if irrelevantRate entry.2 then appendRates config sizes rest
    else appendRates config
      (sizes ++ [{ Width := config.Width, Height := config.Height, Rate := entry.2 }]) rest

/-- The outer loop of `ScreenConfigurations` over the configurations. -/
def appendConfigurations :
    List ScreenSize → List (Int × ScreenConfiguration) → List ScreenSize
  | sizes, [] => sizes
  | sizes, entry :: rest => appendConfigurations (appendRates entry.2 sizes entry.2.Rates) rest

/-- Method `DesktopManagerCtx.ScreenConfigurations`; `configs` is the map the backend's
`GetScreenConfigurations` answers. -/
def DesktopManagerCtx.ScreenConfigurations (_m : DesktopManagerCtx)
    (configs : List (Int × ScreenConfiguration)) : List ScreenSize :=
  appendConfigurations [] configs

/-- The rates the spec keeps: at most 30, or one of 40, 50, 60. -/
def specKeptRate (rate : Int) : Bool :=
  decide (rate ≤ 30 ∨ rate = 40 ∨ rate = 50 ∨ rate = 60)

/-- The entries the spec describes: one per configuration and kept rate, with the width
and the height of the configuration. -/
def specScreenSizes (configs : List (Int × ScreenConfiguration)) : List ScreenSize :=
  configs.flatMap (fun c =>
    (c.2.Rates.filter (fun r => specKeptRate r.2)).map
      (fun r => { Width := c.2.Width, Height := c.2.Height, Rate := r.2 }))

/-! ## `cmd/agent.go` -/

/-- The token `agentServe.PreRun` stores: the flag `--token`, or when that is empty the
string `utils.NewUID(32)` returned (`utils` is not among the sources; the error it returns
with the string is dropped by the caller). -/
def agentServe.PreRun (flagToken : String) (newUID : String) : String :=
  if flagToken = "" then newUID else flagToken

/-- Xorg input functions that do nothing, for runs on the Darwin backend, which never
calls them. -/
def idleXorgFunctions : XorgFunctions :=
  { KeyDown := fun pkg _ _ => (none, pkg)
    ButtonDown := fun pkg _ _ => (none, pkg)
    ResetKeys := fun pkg => pkg }

/-- A manager on macOS as `New` builds it. -/
def freshDarwinManager : DesktopManagerCtx :=
  { config := { Display := ":0", ScreenSize := { Width := 1920, Height := 1080, Rate := 60 }
                UseInputDriver := false, InputSocket := "", Unminimize := false
                FileChooserDialog := false }
    screenSize := { Width := 1920, Height := 1080, Rate := 60 }
    backend := .darwin DarwinBackend.NewBackend
    input := none
    trace := [] }

/-! ## `internal/agent/session.go`: types -/

/-- Modelled from the spec: `types.MemberProfile` (package `pkg/types` is not among the
sources): "display name, administrative rights, permission to authenticate, to attach a
signaling peer, to attach a streaming peer, to become host, to access shared
clipboard"; the field names are those `NewSingleSessionManager` assigns. -/
structure MemberProfile where
  Name : String
  IsAdmin : Bool
  CanLogin : Bool
  CanConnect : Bool
  CanWatch : Bool
  CanHost : Bool
  CanAccessClipboard : Bool
  deriving DecidableEq, Repr

/-- Modelled from the spec: `types.Settings`, with the fields `NewSingleSessionManager`
assigns. -/
structure Settings where
  PrivateMode : Bool
  LockedLogins : Bool
  LockedControls : Bool
  ControlProtection : Bool
  ImplicitHosting : Bool
  InactiveCursors : Bool
  MercifulReconnect : Bool
  HeartbeatInterval : Int
  deriving DecidableEq, Repr

/-- Modelled from the spec: `types.SessionState`, with the fields the session assigns; a
`*time.Time` is `Option` of a clock value. -/
structure SessionState where
  IsConnected : Bool
  ConnectedSince : Option Nat
  NotConnectedSince : Option Nat
  IsWatching : Bool
  WatchingSince : Option Nat
  NotWatchingSince : Option Nat
  deriving DecidableEq, Repr

/-- Modelled from the spec: `types.Cursor`, a queued cursor position. -/
structure Cursor where
  X : Int
  Y : Int
  deriving DecidableEq, Repr

/-- A value of the interface `types.WebSocketPeer`: `none` is nil, `some a` the peer
object at address `a`. Go compares two such values by this identity. -/
abbrev WebSocketPeer := Option Nat

/-- A value of the interface `types.WebRTCPeer`, likewise. -/
abbrev WebRTCPeer := Option Nat

/-- A value of the interface `types.Session` where only its identity matters (a map key,
an event payload): nil, the manager's own session, or another object. -/
inductive SessionRef where
  | nil
  | own
  | other (addr : Nat)
  deriving DecidableEq, Repr

/-- The errors of the session manager, one constructor per message. -/
inductive SessionError where
  /-- Message "session creation not supported in agent mode". -/
  | creationNotSupported
  /-- Message "session update not supported in agent mode". -/
  | updateNotSupported
  /-- Message "session deletion not supported in agent mode". -/
  | deletionNotSupported
  /-- Message "invalid token". -/
  | invalidToken
  /-- The value `types.ErrSessionNotFound`. -/
  | ErrSessionNotFound
  deriving DecidableEq, Repr

/-- An argument handed to `emmiter.Emit` after the event name. -/
inductive Payload where
  | session (ref : SessionRef)
  | settings (s : Settings)
  deriving DecidableEq, Repr

/-- One call `emmiter.Emit(event, payload...)`. -/
structure Emission where
  event : String
  payload : List Payload
  deriving DecidableEq, Repr

/-- A method call on a signaling peer. -/
inductive PeerCall where
  | Send (peer : Nat) (event : String) (payload : String)
  | Destroy (peer : Nat) (reason : String)
  deriving DecidableEq, Repr

/-- A goroutine started by `DisconnectWebSocketPeer` in delayed mode: the peer its closure
captured and the clock value at which its five-second sleep ends. -/
structure GraceTimer where
  peer : WebSocketPeer
  wake : Nat
  deriving DecidableEq, Repr

/-- The struct `SingleSession` (its `manager` pointer is the enclosing
`SingleSessionManager`). -/
structure SingleSession where
  id : String
  token : String
  profile : MemberProfile
  state : SessionState
  websocketPeer : WebSocketPeer
  webrtcPeer : WebRTCPeer
  deriving DecidableEq, Repr

/-- The type `map[types.Session][]types.Cursor`. -/
abbrev CursorMap := List (SessionRef × List Cursor)

/-- The type `[]types.Session` of the agent's sessions. -/
abbrev Sessions := List SingleSession

/-- The struct `SingleSessionManager` with its session. `emitted` logs the calls of
`emmiter.Emit`, `listening` the events for which `emmiter.On` registered a listener,
`peerLog` the calls made on peers, `timers` the sleeping grace goroutines. -/
structure SingleSessionManager where
  session : SingleSession
  token : String
  settings : Settings
  cursors : CursorMap
  emitted : List Emission
  listening : List String
  peerLog : List PeerCall
  timers : List GraceTimer
  deriving DecidableEq, Repr

/-- An `*http.Request` as `Authenticate` reads it: `Header k` is `r.Header.Get(k)` and
`Query k` is `r.URL.Query().Get(k)`, each the empty string when the key is absent. -/
structure Request where
  Header : String → String
  Query : String → String

/-! ## `internal/agent/session.go`: the manager -/

/-- The profile `NewSingleSessionManager` gives the agent session. -/
def agentProfile : MemberProfile :=
  { Name := "Agent", IsAdmin := true, CanLogin := true, CanConnect := true
    CanWatch := true, CanHost := true, CanAccessClipboard := true }

/-- The zero value of `types.SessionState`. -/
def SessionState.zero : SessionState :=
  { IsConnected := false, ConnectedSince := none, NotConnectedSince := none
    IsWatching := false, WatchingSince := none, NotWatchingSince := none }

/-- The constructor `NewSingleSessionManager`. -/
def NewSingleSessionManager (token : String) : SingleSessionManager :=
  { session :=
      { id := "agent", token := token, profile := agentProfile
        state := SessionState.zero, websocketPeer := none, webrtcPeer := none }
    token := token
    settings :=
      { PrivateMode := false, LockedLogins := true, LockedControls := false
        ControlProtection := false, ImplicitHosting := true, InactiveCursors := false
        MercifulReconnect := true, HeartbeatInterval := 10 }
    cursors := []
    emitted := []
    listening := []
    peerLog := []
    timers := [] }

namespace SingleSessionManager

/-- One call `m.emmiter.Emit(event, payload...)`. -/
def emit (m : SingleSessionManager) (event : String) (payload : List Payload) :
    SingleSessionManager :=
  { m with emitted := m.emitted ++ [{ event := event, payload := payload }] }

/-- Method `Create`: results (session, token, error) and the manager afterwards. -/
def Create (m : SingleSessionManager) (_id : String) (_profile : MemberProfile) :
    (Option SingleSession × String × Option SessionError) × SingleSessionManager :=
  ((none, "", some .creationNotSupported), m)

/-- Method `Update`. -/
def Update (m : SingleSessionManager) (_id : String) (_profile : MemberProfile) :
    Option SessionError × SingleSessionManager :=
  (some .updateNotSupported, m)

/-- Method `Delete`. -/
def Delete (m : SingleSessionManager) (_id : String) :
    Option SessionError × SingleSessionManager :=
  (some .deletionNotSupported, m)

/-- Method `Disconnect`. -/
def Disconnect (m : SingleSessionManager) (id : String) :
    Option SessionError × SingleSessionManager :=
  if id ≠ "agent" then (some .ErrSessionNotFound, m) else (none, m)

/-- Method `Get`. -/
def Get (m : SingleSessionManager) (id : String) : Option SingleSession × Bool :=
  if id = "agent" then (some m.session, true) else (none, false)

/-- Method `GetByToken`. -/
def GetByToken (m : SingleSessionManager) (token : String) : Option SingleSession × Bool :=
  if token = m.token then (some m.session, true) else (none, false)

/-- Method `GetHost`. -/
def GetHost (m : SingleSessionManager) : Option SingleSession × Bool :=
  (some m.session, true)

/-- Method `SetCursor`: a missing key reads as the nil slice. -/
def SetCursor (m : SingleSessionManager) (cursor : Cursor) (session : SessionRef) :
    SingleSessionManager :=
  let list := (mapGet m.cursors session).getD []
  let list := list ++ [cursor]
  { m with cursors := mapSet m.cursors session list }

/-- Method `PopCursors`: the old map, and the manager with a fresh one. -/
def PopCursors (m : SingleSessionManager) : CursorMap × SingleSessionManager :=
  (m.cursors, { m with cursors := [] })

/-- Method `Settings`. -/
def Settings (m : SingleSessionManager) : Neko.Settings :=
  m.settings

/-- Method `UpdateSettingsFunc`; the mutator gets a copy and reports whether it changed
it. -/
def UpdateSettingsFunc (m : SingleSessionManager) (session : SessionRef)
    (f : Neko.Settings → Neko.Settings × Bool) : SingleSessionManager :=
  let r := f m.settings
  if r.2 then
    let old := m.settings
    { m with settings := r.1 }.emit "settings_changed"
      [.session session, .settings r.1, .settings old]
  else m

/-- The methods `OnCreated` ... `OnSettingsChanged`: one `emmiter.On(event, ...)`. -/
def On (m : SingleSessionManager) (event : String) : SingleSessionManager :=
  { m with listening := m.listening ++ [event] }

/-- Method `Authenticate`. -/
def Authenticate (m : SingleSessionManager) (r : Request) :
    Option SingleSession × Option SessionError :=
  let token := r.Header "Authorization"
  let token := if token = "" then r.Query "token" else token
  let token := if token = "" then r.Query "password" else token
  if token = m.token then (some m.session, none) else (none, some .invalidToken)

end SingleSessionManager

/-! ## `internal/agent/session.go`: the session

The receiver of a session method is the session of the manager `m`; the method gets
the whole manager because it emits on the manager's emitter. -/

/-- Method `SingleSession.ID`. -/
def SingleSession.ID (s : SingleSession) : String :=
  s.id

/-- Method `SingleSession.Profile`. -/
def SingleSession.Profile (s : SingleSession) : MemberProfile :=
  s.profile

/-- Method `SingleSession.State`. -/
def SingleSession.State (s : SingleSession) : SessionState :=
  s.state

/-- Method `SingleSession.IsHost`. -/
def SingleSession.IsHost (_s : SingleSession) : Bool :=
  true

/-- Method `SingleSession.LegacyIsHost`. -/
def SingleSession.LegacyIsHost (_s : SingleSession) : Bool :=
  true

/-- Method `SingleSession.PrivateModeEnabled`. -/
def SingleSession.PrivateModeEnabled (_s : SingleSession) : Bool :=
  false

/-- Method `SingleSession.SetAsHost`: empty body. -/
def SingleSession.SetAsHost (m : SingleSessionManager) : SingleSessionManager :=
  m

/-- Method `SingleSession.SetAsHostBy`: empty body. -/
def SingleSession.SetAsHostBy (m : SingleSessionManager) (_session : SessionRef) :
    SingleSessionManager :=
  m

/-- Method `SingleSession.ClearHost`: empty body. -/
def SingleSession.ClearHost (m : SingleSessionManager) : SingleSessionManager :=
  m

/-- Method `SingleSession.SetCursor`. -/
def SingleSession.SetCursor (m : SingleSessionManager) (cursor : Cursor) :
    SingleSessionManager :=
  m.SetCursor cursor .own

/-- Method `SingleSession.ConnectWebSocketPeer`. -/
def SingleSession.ConnectWebSocketPeer (m : SingleSessionManager) (websocketPeer : WebSocketPeer)
    (now : Nat) : SingleSessionManager :=
  let s := m.session
  let s1 := { s with websocketPeer := websocketPeer
                     state := { s.state with IsConnected := true, ConnectedSince := some now } }
  let m1 := { m with session := s1 }
  (m1.emit "connected" [.session .own]).emit "state_changed" [.session .own]

/-- Method `SingleSession.disconnectNow`, in a run in which both `Emit` calls return. Its
callers hold `s.mu` while it runs, so a listener that takes `s.mu` keeps the first `Emit`
from returning: `SingleSession.disconnectNowHeld` gives the method with the listeners. -/
def SingleSession.disconnectNow (m : SingleSessionManager) (now : Nat) : SingleSessionManager :=
  let s := m.session
  let s1 := { s with websocketPeer := none
                     state := { s.state with IsConnected := false
                                             NotConnectedSince := some now
                                             ConnectedSince := none } }
  let m1 := { m with session := s1 }
  (m1.emit "disconnected" [.session .own]).emit "state_changed" [.session .own]

/-- The grace window of `DisconnectWebSocketPeer`. -/
def graceWindow : Nat := 5 * Second

/-- Method `SingleSession.DisconnectWebSocketPeer`; in delayed mode it only starts the
goroutine. -/
def SingleSession.DisconnectWebSocketPeer (m : SingleSessionManager)
    (websocketPeer : WebSocketPeer) (delayed : Bool) (now : Nat) : SingleSessionManager :=
  if m.session.websocketPeer ≠ websocketPeer then m
  else if delayed then
    { m with timers := m.timers ++ [{ peer := websocketPeer, wake := now + graceWindow }] }
  else SingleSession.disconnectNow m now

/-- The goroutine of `DisconnectWebSocketPeer` after its sleep, at clock `now`. -/
def SingleSession.graceTimerBody (m : SingleSessionManager) (websocketPeer : WebSocketPeer)
    (now : Nat) : SingleSessionManager :=
  if m.session.websocketPeer = websocketPeer then SingleSession.disconnectNow m now else m

/-- The `i`-th sleeping grace goroutine wakes up and runs to its end; nothing happens
when there is no such goroutine. -/
def SingleSession.graceTimerFires (m : SingleSessionManager) (i : Nat) (now : Nat) :
    SingleSessionManager :=
  match m.timers.get? i with
  | none => m
  | some t => SingleSession.graceTimerBody { m with timers := m.timers.eraseIdx i } t.peer now

/-- Method `SingleSession.DestroyWebSocketPeer`. -/
def SingleSession.DestroyWebSocketPeer (m : SingleSessionManager) (reason : String)
    (now : Nat) : SingleSessionManager :=
  let s := m.session
  let m1 := match s.websocketPeer with
    | some peer => { m with peerLog := m.peerLog ++ [PeerCall.Destroy peer reason] }
    | none => m
  let s1 := { s with websocketPeer := none
                     state := { s.state with IsConnected := false
                                             NotConnectedSince := some now
                                             ConnectedSince := none } }
  let m2 := { m1 with session := s1 }
  (m2.emit "disconnected" [.session .own]).emit "state_changed" [.session .own]

/-- Method `SingleSession.Send`. -/
def SingleSession.Send (m : SingleSessionManager) (event payload : String) :
    SingleSessionManager :=
  match m.session.websocketPeer with
  | some peer => { m with peerLog := m.peerLog ++ [PeerCall.Send peer event payload] }
  | none => m

/-- Method `SingleSession.SetWebRTCPeer`. -/
def SingleSession.SetWebRTCPeer (m : SingleSessionManager) (webrtcPeer : WebRTCPeer) :
    SingleSessionManager :=
  { m with session := { m.session with webrtcPeer := webrtcPeer } }

/-- Method `SingleSession.SetWebRTCConnected`. -/
def SingleSession.SetWebRTCConnected (m : SingleSessionManager) (webrtcPeer : WebRTCPeer)
    (connected : Bool) (now : Nat) : SingleSessionManager :=
  let s := m.session
  let s1 :=
    if s.webrtcPeer = webrtcPeer then
      if connected then
        { s with state := { s.state with IsWatching := connected, WatchingSince := some now
                                         NotWatchingSince := none } }
      else
        { s with state := { s.state with IsWatching := connected, NotWatchingSince := some now
                                         WatchingSince := none } }
    else s
  { m with session := s1 }.emit "state_changed" [.session .own]

/-- Method `SingleSessionManager.Broadcast`. -/
def SingleSessionManager.Broadcast (m : SingleSessionManager) (event payload : String)
    (exclude : List String) : SingleSessionManager :=
  if m.session.State.IsConnected then
    if exclude.any (fun ex => decide (ex = "agent")) then m
    else SingleSession.Send m event payload
  else m

/-- Method `SingleSessionManager.AdminBroadcast`. -/
def SingleSessionManager.AdminBroadcast (m : SingleSessionManager) (event payload : String)
    (exclude : List String) : SingleSessionManager :=
  m.Broadcast event payload exclude

/-! ## `internal/agent/session.go`: emissions while the session's mutex is held

`emmiter.Emit` calls the listeners of the event one after the other and returns when the
last one has returned. The methods `State`, `Send` and `GetWebRTCPeer` of the session take
`s.mu.RLock()`, and a `sync.RWMutex` is not reentrant: a listener that calls one of them
while the emitting method holds `s.mu.Lock()` never returns. -/

/-- What a listener does with the session it is handed: nothing that takes the session's
mutex, or a call of a method that takes it (`State`, `Send`, `GetWebRTCPeer`, or
`Broadcast` of the manager, which calls `State`). -/
inductive ListenerBody where
  | leavesSession
  | readsSession
  deriving DecidableEq, Repr

/-- A listener registered with `emmiter.On(event, ...)`. -/
structure Listener where
  event : String
  body : ListenerBody
  deriving DecidableEq, Repr

/-- How a call ends: it returns, or it blocks for ever on the session's mutex; in both
cases with the manager as the call has left it. -/
inductive CallEnd where
  | returned (m : SingleSessionManager)
  | blocked (m : SingleSessionManager)
  deriving DecidableEq, Repr

/-- The manager at the end of a call. -/
def CallEnd.manager : CallEnd → SingleSessionManager
  | .returned m => m
  | .blocked m => m

/-- Whether the call returned. -/
def CallEnd.returns : CallEnd → Bool
  | .returned _ => true
  | .blocked _ => false

/-- One `emmiter.Emit(event, payload...)` with its listeners; `held` says whether the
emitting method holds `s.mu` at that point. -/
def emitToListeners (listeners : List Listener) (held : Bool) (m : SingleSessionManager)
    (event : String) (payload : List Payload) : CallEnd :=
  let m1 := m.emit event payload
  if held && listeners.any
      (fun l => decide (l.event = event) && decide (l.body = ListenerBody.readsSession)) then
    .blocked m1
  else .returned m1

/-- Method `SingleSession.disconnectNow` with the listeners of the emitter; its callers
hold `s.mu`. -/
def SingleSession.disconnectNowHeld (listeners : List Listener) (m : SingleSessionManager)
    (now : Nat) : CallEnd :=
  let s := m.session
  let s1 := { s with websocketPeer := none
                     state := { s.state with IsConnected := false
                                             NotConnectedSince := some now
                                             ConnectedSince := none } }
  let m1 := { m with session := s1 }
  match emitToListeners listeners true m1 "disconnected" [.session .own] with
  | .blocked b => .blocked b
  | .returned m2 => emitToListeners listeners true m2 "state_changed" [.session .own]

/-- Method `SingleSession.DisconnectWebSocketPeer` with the listeners of the emitter: the
mutex is taken at entry and released by the deferred `Unlock`, so it is held during
`disconnectNow`. -/
def SingleSession.DisconnectWebSocketPeerHeld (listeners : List Listener)
    (m : SingleSessionManager) (websocketPeer : WebSocketPeer) (delayed : Bool) (now : Nat) :
    CallEnd :=
  if m.session.websocketPeer ≠ websocketPeer then .returned m
  else if delayed then
    .returned
      { m with timers := m.timers ++ [{ peer := websocketPeer, wake := now + graceWindow }] }
  else SingleSession.disconnectNowHeld listeners m now

/-- Method `SingleSession.DestroyWebSocketPeer` with the listeners of the emitter: the
mutex is released before the two `Emit` calls. -/
def SingleSession.DestroyWebSocketPeerReleased (listeners : List Listener)
    (m : SingleSessionManager) (reason : String) (now : Nat) : CallEnd :=
  let s := m.session
  let m1 := match s.websocketPeer with
    | some peer => { m with peerLog := m.peerLog ++ [PeerCall.Destroy peer reason] }
    | none => m
  let s1 := { s with websocketPeer := none
                     state := { s.state with IsConnected := false
                                             NotConnectedSince := some now
                                             ConnectedSince := none } }
  let m2 := { m1 with session := s1 }
  match emitToListeners listeners false m2 "disconnected" [.session .own] with
  | .blocked b => .blocked b
  | .returned m3 => emitToListeners listeners false m3 "state_changed" [.session .own]

/-! ## Runs of the session manager -/

/-- A call of a method of the manager or of its session, with its arguments (and the
clock value the call reads). `Read` stands for the methods that assign nothing and emit
nothing: `Get`, `GetByToken`, `List`, `Range`, `GetHost`, `Settings`, `CookieEnabled`,
`Stats`, `Authenticate`, and on the session `ID`, `Profile`, `State`, `IsHost`,
`LegacyIsHost`, `PrivateModeEnabled`, `GetWebRTCPeer`. -/
inductive AgentCall where
  | Create (id : String) (profile : MemberProfile)
  | Update (id : String) (profile : MemberProfile)
  | Delete (id : String)
  | Disconnect (id : String)
  | SetCursor (cursor : Cursor) (session : SessionRef)
  | PopCursors
  | Broadcast (event payload : String) (exclude : List String)
  | AdminBroadcast (event payload : String) (exclude : List String)
  | InactiveCursorsBroadcast (event payload : String) (exclude : List String)
  | On (event : String)
  | UpdateSettingsFunc (session : SessionRef) (f : Settings → Settings × Bool)
  | CookieSetToken (token : String)
  | CookieClearToken
  | Read
  | SetAsHost
  | SetAsHostBy (session : SessionRef)
  | ClearHost
  | SessionSetCursor (cursor : Cursor)
  | ConnectWebSocketPeer (peer : WebSocketPeer) (now : Nat)
  | DisconnectWebSocketPeer (peer : WebSocketPeer) (delayed : Bool) (now : Nat)
  | GraceTimerFires (i : Nat) (now : Nat)
  | DestroyWebSocketPeer (reason : String) (now : Nat)
  | Send (event payload : String)
  | SetWebRTCPeer (peer : WebRTCPeer)
  | SetWebRTCConnected (peer : WebRTCPeer) (connected : Bool) (now : Nat)

/-- The manager after one call. -/
def SingleSessionManager.step (m : SingleSessionManager) : AgentCall → SingleSessionManager
  | .Create id profile => (m.Create id profile).2
  | .Update id profile => (m.Update id profile).2
  | .Delete id => (m.Delete id).2
  | .Disconnect id => (m.Disconnect id).2
  | .SetCursor cursor session => m.SetCursor cursor session
  | .PopCursors => m.PopCursors.2
  | .Broadcast event payload exclude => m.Broadcast event payload exclude
  | .AdminBroadcast event payload exclude => m.AdminBroadcast event payload exclude
  | .InactiveCursorsBroadcast _ _ _ => m
  | .On event => m.On event
  | .UpdateSettingsFunc session f => m.UpdateSettingsFunc session f
  | .CookieSetToken _ => m
  | .CookieClearToken => m
  | .Read => m
  | .SetAsHost => SingleSession.SetAsHost m
  | .SetAsHostBy session => SingleSession.SetAsHostBy m session
  | .ClearHost => SingleSession.ClearHost m
  | .SessionSetCursor cursor => SingleSession.SetCursor m cursor
  | .ConnectWebSocketPeer peer now => SingleSession.ConnectWebSocketPeer m peer now
  | .DisconnectWebSocketPeer peer delayed now =>
    SingleSession.DisconnectWebSocketPeer m peer delayed now
  | .GraceTimerFires i now => SingleSession.graceTimerFires m i now
  | .DestroyWebSocketPeer reason now => SingleSession.DestroyWebSocketPeer m reason now
  | .Send event payload => SingleSession.Send m event payload
  | .SetWebRTCPeer peer => SingleSession.SetWebRTCPeer m peer
  | .SetWebRTCConnected peer connected now =>
    SingleSession.SetWebRTCConnected m peer connected now

/-- The manager after a sequence of calls, first call first. -/
def runCalls (m : SingleSessionManager) (calls : List AgentCall) : SingleSessionManager :=
  calls.foldl SingleSessionManager.step m

/-- How often the event `event` occurs in a log of emissions. -/
def countEvent (event : String) (log : List Emission) : Nat :=
  (log.filter (fun e => decide (e.event = event))).length

/-- A step of a run in which the peer is only detached in delayed mode and grace
goroutines wake up: a request of the delayed detach, or the `i`-th sleeping goroutine
waking up. -/
inductive GraceStep where
  | detach (now : Nat)
  | fire (i : Nat) (now : Nat)
  deriving DecidableEq, Repr

/-- The call a grace step makes, for the peer `p`. -/
def GraceStep.call (p : Nat) : GraceStep → AgentCall
  | .detach now => .DisconnectWebSocketPeer (some p) true now
  | .fire i now => .GraceTimerFires i now

/-- A manager on Linux whose Xorg registries hold the key 97 pressed at clock 0, the key
98 pressed at 5 s and the button 1 pressed at clock 0. -/
def linuxInputManager : DesktopManagerCtx :=
  { config := { Display := ":0", ScreenSize := { Width := 1920, Height := 1080, Rate := 60 }
                UseInputDriver := false, InputSocket := "", Unminimize := false
                FileChooserDialog := false }
    screenSize := { Width := 1920, Height := 1080, Rate := 60 }
    backend := .xorg { display := ":0", screenSize := { Width := 1920, Height := 1080, Rate := 60 }
                       pkg := { debounceButton := [(1, 0)]
                                debounceKey := [(97, 0), (98, 5 * Second)] } }
    input := some .dummy
    trace := [] }

/-- While the grace window of `p` is open: `p` is still recorded, `c` disconnected events
were emitted so far, no sleeping goroutine captured nil, and one captured `p`. -/
def GraceWaiting (p c : Nat) (s : SingleSessionManager) : Prop :=
  s.session.websocketPeer = some p
  ∧ countEvent "disconnected" s.emitted = c
  ∧ (∀ t ∈ s.timers, t.peer ≠ none)
  ∧ (∃ t ∈ s.timers, t.peer = some p)

/-- After the grace window closed: the session is disconnected, one more disconnected
event was emitted, and no sleeping goroutine captured nil. -/
def GraceDone (c : Nat) (s : SingleSessionManager) : Prop :=
  s.session.websocketPeer = none
  ∧ s.session.state.IsConnected = false
  ∧ s.session.state.NotConnectedSince.isSome = true
  ∧ s.session.state.ConnectedSince = none
  ∧ countEvent "disconnected" s.emitted = c + 1
  ∧ (∀ t ∈ s.timers, t.peer ≠ none)

/-- The cursors a sequence of `SetCursor(cursor, session)` calls queued for `session`, in
the order of the calls. -/
def queuedFor (calls : List (Cursor × SessionRef)) (session : SessionRef) : List Cursor :=
  (calls.filter (fun c => decide (c.2 = session))).map Prod.fst

/-- The manager after a sequence of `SetCursor(cursor, session)` calls, first call first. -/
def setCursors (m : SingleSessionManager) (calls : List (Cursor × SessionRef)) :
    SingleSessionManager :=
  calls.foldl (fun acc c => acc.SetCursor c.1 c.2) m

/-- The token of a request in the words of the spec: the first non-empty value among the
Authorization header, the query parameter token and the query parameter password, in
that order; the empty string when all three are empty. -/
def specResolvedToken (r : Request) : String :=
  match [r.Header "Authorization", r.Query "token", r.Query "password"].find?
      (fun v => decide (v ≠ "")) with
  | some v => v
  | none => ""

/-- A request with the given Authorization header and query parameters token and
password, and nothing else. -/
def requestWith (authorization token password : String) : Request :=
  { Header := fun k => if k = "Authorization" then authorization else ""
    Query := fun k => if k = "token" then token else if k = "password" then password else "" }

/-- Method `SingleSessionManager.List`. -/
def SingleSessionManager.List (m : SingleSessionManager) : Sessions :=
  [m.session]

/-! ## Facts about Go maps -/

theorem mapGet_append_of_none {κ ν : Type} [DecidableEq κ] (m m2 : List (κ × ν)) (k : κ)
    (h : mapGet m k = none) : mapGet (m ++ m2) k = mapGet m2 k := by
  induction m with
  | nil => rfl
  | cons e rest ih =>
    simp only [mapGet] at h
    by_cases hk : e.1 = k
    · simp [hk] at h
    · simp only [hk, if_false] at h
      simp [mapGet, hk, ih h]

theorem mapGet_append_of_some {κ ν : Type} [DecidableEq κ] (m m2 : List (κ × ν)) (k : κ) (v : ν)
    (h : mapGet m k = some v) : mapGet (m ++ m2) k = some v := by
  induction m with
  | nil => simp [mapGet] at h
  | cons e rest ih =>
    simp only [mapGet] at h
    by_cases hk : e.1 = k
    · simp only [hk, if_true] at h
      simp [mapGet, hk, h]
    · simp only [hk, if_false] at h
      simp [mapGet, hk, ih h]

theorem mapGet_mapDelete_self {κ ν : Type} [DecidableEq κ] (m : List (κ × ν)) (k : κ) :
    mapGet (mapDelete m k) k = none := by
  induction m with
  | nil => rfl
  | cons e rest ih =>
    simp only [mapDelete] at ih ⊢
    by_cases hk : e.1 = k
    · simpa [List.filter_cons, hk] using ih
    · simpa [List.filter_cons, hk, mapGet] using ih

theorem mapGet_mapDelete_ne {κ ν : Type} [DecidableEq κ] (m : List (κ × ν)) (k k2 : κ)
    (hne : k2 ≠ k) : mapGet (mapDelete m k) k2 = mapGet m k2 := by
  induction m with
  | nil => rfl
  | cons e rest ih =>
    simp only [mapDelete] at ih ⊢
    by_cases hk : e.1 = k
    · have h2 : e.1 ≠ k2 := fun h => hne (h.symm.trans hk)
      have h3 : ¬ k = k2 := fun h => hne h.symm
      simpa [List.filter_cons, hk, mapGet, h2, h3] using ih
    · by_cases h2 : e.1 = k2
      · simp [List.filter_cons, hk, mapGet, h2, hne]
      · simpa [List.filter_cons, hk, mapGet, h2] using ih

theorem mapGet_mapSet_self {κ ν : Type} [DecidableEq κ] (m : List (κ × ν)) (k : κ) (v : ν) :
    mapGet (mapSet m k v) k = some v := by
  unfold mapSet
  rw [mapGet_append_of_none _ _ _ (mapGet_mapDelete_self m k)]
  simp [mapGet]

theorem mapGet_mapSet_ne {κ ν : Type} [DecidableEq κ] (m : List (κ × ν)) (k k2 : κ) (v : ν)
    (hne : k2 ≠ k) : mapGet (mapSet m k v) k2 = mapGet m k2 := by
  unfold mapSet
  cases h : mapGet (mapDelete m k) k2 with
  | none =>
    rw [mapGet_append_of_none _ _ _ h, ← mapGet_mapDelete_ne m k k2 hne, h]
    simp [mapGet, Ne.symm hne]
  | some w =>
    rw [mapGet_append_of_some _ _ _ _ h, ← mapGet_mapDelete_ne m k k2 hne, h]

/-! ## The pressed-button registry along a run -/

/-- The pressed button `c` stays recorded across any call but `ButtonUp c` and `ResetKeys`. -/
theorem DarwinBackend.step_keeps_button (d : DarwinBackend) (c : Nat) (op : DarwinOp)
    (hup : op ≠ .ButtonUp c) (hreset : op ≠ .ResetKeys)
    (h : mapGet d.debounceButton c ≠ none) :
    mapGet (d.step op).debounceButton c ≠ none := by
  cases op with
  | ButtonDown code now =>
    simp only [step, ButtonDown]
    cases hg : mapGet d.debounceButton code with
    | some _ => simpa using h
    | none =>
      have hne : c ≠ code := fun e => h (e ▸ hg)
      have hs := mapGet_mapSet_ne d.debounceButton code c now hne
      simp only []
      split_ifs <;> simp [call, hs, h]
  | ButtonUp code =>
    have hne : c ≠ code := fun e => hup (e ▸ rfl)
    simp only [step, ButtonUp]
    cases hg : mapGet d.debounceButton code with
    | none => simpa using h
    | some _ =>
      have hs := mapGet_mapDelete_ne d.debounceButton code c hne
      simp only []
      split_ifs <;> simp [call, hs, h]
  | ResetKeys => exact absurd rfl hreset
  | KeyDown code now =>
    simp only [step, KeyDown]
    cases mapGet d.debounceKey code with
    | some _ => simpa using h
    | none =>
      simp only []
      split_ifs <;> simp [call, h]
  | KeyUp code =>
    simp only [step, KeyUp]
    cases mapGet d.debounceKey code with
    | none => simpa using h
    | some _ =>
      simp only []
      split_ifs <;> simp [call, h]
  | SetKeyboardModifier mod active =>
    simp only [step, SetKeyboardModifier]
    cases modifierKey mod with
    | none => simpa using h
    | some key => cases active <;> simp [call, h]
  | KeyPress codes =>
    simp only [step]
    clear hup hreset
    induction codes generalizing d with
    | nil => simpa [KeyPress] using h
    | cons code rest ih =>
      simp only [KeyPress]
      split_ifs
      · simpa using h
      · exact ih (d.call _) (by simpa [call] using h)
  | Scroll dx dy ctrl =>
    simp only [step, Scroll, call]
    split_ifs <;> simp [h]
  | Init _ _ => simpa [step, Init] using h
  | GetScreenSize _ => simpa [step, GetScreenSize] using h
  | SetScreenSize _ _ => simpa [step, SetScreenSize, GetScreenSize] using h
  | Move _ _ => simpa [step, Move, call] using h
  | SetClipboard _ => simpa [step, SetClipboard, call] using h
  | Getter => simpa [step] using h

/-- A released button `c` stays released across any call but `ButtonDown c`. -/
theorem DarwinBackend.step_keeps_released (d : DarwinBackend) (c : Nat) (op : DarwinOp)
    (hdown : ∀ t, op ≠ .ButtonDown c t)
    (h : mapGet d.debounceButton c = none) :
    mapGet (d.step op).debounceButton c = none := by
  cases op with
  | ButtonDown code now =>
    have hne : c ≠ code := fun e => hdown now (e ▸ rfl)
    simp only [step, ButtonDown]
    cases hg : mapGet d.debounceButton code with
    | some _ => simpa using h
    | none =>
      have hs := mapGet_mapSet_ne d.debounceButton code c now hne
      simp only []
      split_ifs <;> simp [call, hs, h]
  | ButtonUp code =>
    simp only [step, ButtonUp]
    cases hg : mapGet d.debounceButton code with
    | none => simpa using h
    | some _ =>
      have hs : mapGet (mapDelete d.debounceButton code) c = none := by
        by_cases hc : c = code
        · rw [hc]; exact mapGet_mapDelete_self _ _
        · rw [mapGet_mapDelete_ne _ _ _ hc]; exact h
      simp only []
      split_ifs <;> simp [call, hs]
  | ResetKeys => simp [step, ResetKeys, mapGet]
  | KeyDown code now =>
    simp only [step, KeyDown]
    cases mapGet d.debounceKey code with
    | some _ => simpa using h
    | none =>
      simp only []
      split_ifs <;> simp [call, h]
  | KeyUp code =>
    simp only [step, KeyUp]
    cases mapGet d.debounceKey code with
    | none => simpa using h
    | some _ =>
      simp only []
      split_ifs <;> simp [call, h]
  | SetKeyboardModifier mod active =>
    simp only [step, SetKeyboardModifier]
    cases modifierKey mod with
    | none => simpa using h
    | some key => cases active <;> simp [call, h]
  | KeyPress codes =>
    simp only [step]
    clear hdown
    induction codes generalizing d with
    | nil => simpa [KeyPress] using h
    | cons code rest ih =>
      simp only [KeyPress]
      split_ifs
      · simpa using h
      · exact ih (d.call _) (by simpa [call] using h)
  | Scroll dx dy ctrl =>
    simp only [step, Scroll, call]
    split_ifs <;> simp [h]
  | Init _ _ => simpa [step, Init] using h
  | GetScreenSize _ => simpa [step, GetScreenSize] using h
  | SetScreenSize _ _ => simpa [step, SetScreenSize, GetScreenSize] using h
  | Move _ _ => simpa [step, Move, call] using h
  | SetClipboard _ => simpa [step, SetClipboard, call] using h
  | Getter => simpa [step] using h

theorem DarwinBackend.run_keeps_button (c : Nat) (ops : List DarwinOp) :
    ∀ (d : DarwinBackend), (∀ op ∈ ops, op ≠ .ButtonUp c ∧ op ≠ .ResetKeys) →
      mapGet d.debounceButton c ≠ none → mapGet (d.run ops).debounceButton c ≠ none := by
  induction ops with
  | nil => intro d _ h; simpa [run] using h
  | cons op rest ih =>
    intro d hops h
    have hop := hops op (List.mem_cons_self _ _)
    have h1 := d.step_keeps_button c op hop.1 hop.2 h
    exact ih (d.step op) (fun o ho => hops o (List.mem_cons_of_mem _ ho)) h1

theorem DarwinBackend.run_keeps_released (c : Nat) (ops : List DarwinOp) :
    ∀ (d : DarwinBackend), (∀ op ∈ ops, ∀ t, op ≠ .ButtonDown c t) →
      mapGet d.debounceButton c = none → mapGet (d.run ops).debounceButton c = none := by
  induction ops with
  | nil => intro d _ h; simpa [run] using h
  | cons op rest ih =>
    intro d hops h
    have h1 := d.step_keeps_released c op (hops op (List.mem_cons_self _ _)) h
    exact ih (d.step op) (fun o ho => hops o (List.mem_cons_of_mem _ ho)) h1

/-- After `ButtonDown c` the code `c` is recorded, whatever the call returned. -/
theorem DarwinBackend.ButtonDown_records (d : DarwinBackend) (c now : Nat) :
    mapGet (d.ButtonDown c now).2.debounceButton c ≠ none := by
  simp only [ButtonDown]
  cases hg : mapGet d.debounceButton c with
  | some _ => simp [hg]
  | none =>
    have hs := mapGet_mapSet_self d.debounceButton c now
    simp only []
    split_ifs <;> simp [call, hs]

/-- After `ButtonUp c` or `ResetKeys` the code `c` is not recorded. -/
theorem DarwinBackend.release_clears (d : DarwinBackend) (c : Nat) (rel : DarwinOp)
    (h : rel = .ButtonUp c ∨ rel = .ResetKeys) :
    mapGet (d.step rel).debounceButton c = none := by
  rcases h with h | h
  · subst h
    simp only [step, ButtonUp]
    cases hg : mapGet d.debounceButton c with
    | none => simpa using hg
    | some _ =>
      have hs := mapGet_mapDelete_self d.debounceButton c
      simp only []
      split_ifs <;> simp [call, hs]
  · subst h
    simp [step, ResetKeys, mapGet]

theorem DarwinBackend.ButtonDown_of_pressed (d : DarwinBackend) (c now : Nat)
    (h : mapGet d.debounceButton c ≠ none) :
    (d.ButtonDown c now).1 = some (.buttonAlreadyPressed c) := by
  simp only [ButtonDown]
  cases hg : mapGet d.debounceButton c with
  | none => exact absurd hg h
  | some _ => rfl

theorem DarwinBackend.ButtonUp_of_released (d : DarwinBackend) (c : Nat)
    (h : mapGet d.debounceButton c = none) :
    (d.ButtonUp c).1 = some (.buttonNotPressed c) := by
  simp only [ButtonUp, h]

/-! ## Claims on the Darwin backend -/

/-- C1. For every button code `c` and every backend state `d`: (1) after `ButtonDown c`,
whatever calls follow other than `ButtonUp c` and `ResetKeys`, a further `ButtonDown c`
fails with the already-pressed error; (2) in a state whose registry does not hold `c`,
`ButtonUp c` fails with the not-pressed error; (3) this is the state after a `ButtonUp c`
or a `ResetKeys` followed by calls none of which is `ButtonDown c`, and (4) the state of a
fresh backend after calls none of which is `ButtonDown c`. -/
theorem C1_button_press_order (d : DarwinBackend) (c : Nat) :
    (∀ (t1 t2 : Nat) (ops : List DarwinOp),
        (∀ op ∈ ops, op ≠ .ButtonUp c ∧ op ≠ .ResetKeys) →
        (((d.ButtonDown c t1).2.run ops).ButtonDown c t2).1
          = some (.buttonAlreadyPressed c))
    ∧ (mapGet d.debounceButton c = none →
        (d.ButtonUp c).1 = some (.buttonNotPressed c))
    ∧ (∀ (rel : DarwinOp) (ops : List DarwinOp),
        (rel = .ButtonUp c ∨ rel = .ResetKeys) →
        (∀ op ∈ ops, ∀ t, op ≠ .ButtonDown c t) →
        (((d.step rel).run ops).ButtonUp c).1 = some (.buttonNotPressed c))
    ∧ (∀ (ops : List DarwinOp),
        (∀ op ∈ ops, ∀ t, op ≠ .ButtonDown c t) →
        ((DarwinBackend.NewBackend.run ops).ButtonUp c).1 = some (.buttonNotPressed c)) := by
  refine ⟨?_, ?_, ?_, ?_⟩
  · intro t1 t2 ops hops
    exact DarwinBackend.ButtonDown_of_pressed _ c t2
      (DarwinBackend.run_keeps_button c ops _ hops (d.ButtonDown_records c t1))
  · exact d.ButtonUp_of_released c
  · intro rel ops hrel hops
    exact DarwinBackend.ButtonUp_of_released _ c
      (DarwinBackend.run_keeps_released c ops _ hops (d.release_clears c rel hrel))
  · intro ops hops
    exact DarwinBackend.ButtonUp_of_released _ c
      (DarwinBackend.run_keeps_released c ops _ hops rfl)

/-- C1 at a concrete run: left button, pressed on a fresh backend, then a key press, a move
and a press of the right button; and a release after a reset. -/
theorem C1_button_press_order_witness :
    ((((DarwinBackend.NewBackend.ButtonDown 1 5).2.run
        [.KeyDown 97 6, .Move 3 4, .ButtonDown 3 7]).ButtonDown 1 8).1
      = some (.buttonAlreadyPressed 1))
    ∧ ((DarwinBackend.NewBackend.ButtonUp 1).1 = some (.buttonNotPressed 1))
    ∧ ((((DarwinBackend.NewBackend.step .ResetKeys).run [.ButtonDown 3 7]).ButtonUp 1).1
      = some (.buttonNotPressed 1)) :=
  ⟨(C1_button_press_order DarwinBackend.NewBackend 1).1 5 8
      [.KeyDown 97 6, .Move 3 4, .ButtonDown 3 7] (by decide),
    (C1_button_press_order DarwinBackend.NewBackend 1).2.1 rfl,
    (C1_button_press_order DarwinBackend.NewBackend 1).2.2.1 .ResetKeys [.ButtonDown 3 7]
      (Or.inr rfl) (by simp)⟩

/-- C2. For every backend state, after `ResetKeys` the pressed-key registry and the
pressed-button registry are empty and `GetKeyboardModifiers` returns 0. -/
theorem C2_reset_keys_clears (d : DarwinBackend) :
    d.ResetKeys.debounceKey = []
    ∧ d.ResetKeys.debounceButton = []
    ∧ d.ResetKeys.GetKeyboardModifiers = 0
    ∧ (∀ code, mapGet d.ResetKeys.debounceKey code = none)
    ∧ (∀ code, mapGet d.ResetKeys.debounceButton code = none) :=
  ⟨rfl, rfl, rfl, fun _ => rfl, fun _ => rfl⟩

/-! ## Claims on the desktop manager -/

/-- C3. For every manager state, requested size and platform answer (so for every backend
outcome), one call of `SetScreenSize` appends to the trace exactly: the acquisition of the
lock, one `before_screen_size_change`, the backend's `SetScreenSize`, one
`after_screen_size_change`, the release of the lock, in this order; each of the two events
occurs once among them. -/
theorem C3_screen_size_change_brackets (m : DesktopManagerCtx) (size : ScreenSize)
    (host : Host) :
    (m.SetScreenSize size host).2.trace
      = m.trace ++ [.Lock, .Emit "before_screen_size_change", .BackendSetScreenSize size,
                    .Emit "after_screen_size_change", .Unlock]
    ∧ ∃ added : List DesktopEvent,
        (m.SetScreenSize size host).2.trace = m.trace ++ added
        ∧ added.count (.Emit "before_screen_size_change") = 1
        ∧ added.count (.Emit "after_screen_size_change") = 1
        ∧ added.count .Lock = 1 ∧ added.count .Unlock = 1
        ∧ added.head? = some .Lock ∧ added.getLast? = some .Unlock := by
  have h : (m.SetScreenSize size host).2.trace
      = m.trace ++ [.Lock, .Emit "before_screen_size_change", .BackendSetScreenSize size,
                    .Emit "after_screen_size_change", .Unlock] := by
    simp only [DesktopManagerCtx.SetScreenSize, DesktopManagerCtx.log]
    cases (Backend.SetScreenSize m.backend size host).1.2 <;> simp
  refine ⟨h, _, h, ?_, ?_, ?_, ?_, ?_, ?_⟩ <;> simp [List.count_cons]

/-- C8, refuted as stated: on the Darwin backend the key 97, pressed at clock 0, is still
in the pressed registry after the tick at 11 s, eleven seconds being longer than the
threshold; a further `KeyDown 97` is then refused. -/
theorem C8_darwin_tick_releases_nothing :
    ¬ (∀ e ∈ stuckInputManager.backend.pressedKeys,
        11 * Second - e.2 > DesktopManagerCtx.debounceDuration →
        e ∉ (stuckInputManager.debounceTick (11 * Second)).backend.pressedKeys) := by
  intro h
  exact h (97, 0) (by decide) (by decide) (by decide)

/-- C8, amended. One tick at clock `now`: with the Xorg backend, an entry of the pressed-key
(pressed-button) registry is kept exactly when it was not held longer than the threshold of
10 s, no entry is added, and the input driver, when there is one, is told to debounce; with
the Darwin backend the tick changes nothing at all. -/
theorem C8_debounce_tick_by_backend (m : DesktopManagerCtx) (now : Nat) :
    (∀ x, m.backend = .xorg x →
        (∀ e, e ∈ (m.debounceTick now).backend.pressedKeys
            ↔ e ∈ x.pkg.debounceKey ∧ ¬ (now - e.2 > 10 * Second))
        ∧ (∀ e, e ∈ (m.debounceTick now).backend.pressedButtons
            ↔ e ∈ x.pkg.debounceButton ∧ ¬ (now - e.2 > 10 * Second))
        ∧ (m.debounceTick now).trace
            = m.trace ++ (if m.input.isSome then [.InputDebounce (10 * Second)] else []))
    ∧ (∀ d, m.backend = .darwin d → m.debounceTick now = m) := by
  constructor
  · intro x hx
    simp only [DesktopManagerCtx.debounceTick, hx]
    cases hi : m.input <;>
      simp [DesktopManagerCtx.log, Backend.pressedKeys, Backend.pressedButtons,
        XorgPackage.CheckKeys, List.mem_filter, DesktopManagerCtx.debounceDuration]
  · intro d hd
    simp [DesktopManagerCtx.debounceTick, hd]

/-- C8, amended, at concrete managers: on Linux the tick at 11 s keeps of the keys 97
(pressed at 0) and 98 (pressed at 5 s) exactly those not held longer than 10 s; on macOS
the manager with the stuck key is left as it was. -/
theorem C8_debounce_tick_by_backend_witness :
    (∀ e, e ∈ (linuxInputManager.debounceTick (11 * Second)).backend.pressedKeys
        ↔ e ∈ [(97, 0), (98, 5 * Second)] ∧ ¬ (11 * Second - e.2 > 10 * Second))
    ∧ stuckInputManager.debounceTick (11 * Second) = stuckInputManager :=
  ⟨((C8_debounce_tick_by_backend linuxInputManager (11 * Second)).1 _ rfl).1,
    (C8_debounce_tick_by_backend stuckInputManager (11 * Second)).2 _ rfl⟩

/-! ## Claims on the grace window of the session -/

/-- C4. For distinct peers `p` and `q` and every manager state: attach `p`, detach `p` in
delayed mode, attach `q`, then let the goroutine of that detach wake up. The goroutine is
the one sleeping at the index the detach gave it and it captured `p`; its wake-up changes
neither the session nor the emissions nor the calls made on peers. The session is
connected after every step, `q` is the recorded peer, `ConnectedSince` is the clock of the
second attach, and the run emitted connected, state_changed, connected, state_changed and
no disconnected event. -/
theorem C4_reconnect_beats_grace_timer (m : SingleSessionManager) (p q : WebSocketPeer)
    (t1 t2 t3 t4 : Nat) (hpq : p ≠ q) :
    let m1 := SingleSession.ConnectWebSocketPeer m p t1
    let m2 := SingleSession.DisconnectWebSocketPeer m1 p true t2
    let m3 := SingleSession.ConnectWebSocketPeer m2 q t3
    let m4 := SingleSession.graceTimerFires m3 m.timers.length t4
    m3.timers.get? m.timers.length = some { peer := p, wake := t2 + graceWindow }
    ∧ m4.session = m3.session ∧ m4.emitted = m3.emitted ∧ m4.peerLog = m3.peerLog
    ∧ m4.timers = m.timers
    ∧ m1.session.state.IsConnected = true ∧ m2.session.state.IsConnected = true
    ∧ m3.session.state.IsConnected = true ∧ m4.session.state.IsConnected = true
    ∧ m4.session.websocketPeer = q
    ∧ m4.session.state.ConnectedSince = some t3
    ∧ m4.emitted = m.emitted ++
        [{ event := "connected", payload := [.session .own] },
         { event := "state_changed", payload := [.session .own] },
         { event := "connected", payload := [.session .own] },
         { event := "state_changed", payload := [.session .own] }]
    ∧ countEvent "disconnected" m4.emitted = countEvent "disconnected" m.emitted := by
  have hqp : ¬ q = p := fun h => hpq h.symm
  simp [SingleSession.ConnectWebSocketPeer, SingleSession.DisconnectWebSocketPeer,
    SingleSession.graceTimerFires, SingleSession.graceTimerBody, SingleSessionManager.emit,
    hqp, countEvent, List.filter_append, List.filter_cons, List.eraseIdx_append_of_length_le]

/-- C4 at concrete peers 1 and 2 on a fresh manager. -/
theorem C4_reconnect_beats_grace_timer_witness :
    (some 1 : WebSocketPeer) ≠ some 2
    ∧ (SingleSession.graceTimerFires
        (SingleSession.ConnectWebSocketPeer
          (SingleSession.DisconnectWebSocketPeer
            (SingleSession.ConnectWebSocketPeer (NewSingleSessionManager "secret") (some 1) 10)
            (some 1) true 20)
          (some 2) 30)
        (NewSingleSessionManager "secret").timers.length 40).session.websocketPeer = some 2 :=
  ⟨by decide,
    (C4_reconnect_beats_grace_timer (NewSingleSessionManager "secret") (some 1) (some 2)
      10 20 30 40 (by decide)).2.2.2.2.2.2.2.2.2.1⟩

theorem countEvent_append (event : String) (l1 l2 : List Emission) :
    countEvent event (l1 ++ l2) = countEvent event l1 + countEvent event l2 := by
  simp [countEvent, List.filter_append]

/-- A pending goroutine for `p` survives the removal of one that captured another peer. -/
theorem timers_keep_waiting (l : List GraceTimer) (i : Nat) (t : GraceTimer) (p : Nat)
    (hi : l.get? i = some t) (ht : t.peer ≠ some p) (h : ∃ u ∈ l, u.peer = some p) :
    ∃ u ∈ l.eraseIdx i, u.peer = some p := by
  obtain ⟨u, hu, hup⟩ := h
  refine ⟨u, ?_, hup⟩
  rw [List.mem_eraseIdx_iff_getElem?]
  obtain ⟨j, hj⟩ := List.mem_iff_getElem?.mp hu
  refine ⟨j, ?_, hj⟩
  intro hji
  subst hji
  rw [List.get?_eq_getElem?] at hi
  rw [hi] at hj
  injection hj with hj
  exact ht (hj ▸ hup)

/-- One grace step keeps the run in one of its two phases. -/
theorem grace_step_phase (p c : Nat) (s : SingleSessionManager) (g : GraceStep)
    (h : GraceWaiting p c s ∨ GraceDone c s) :
    GraceWaiting p c (s.step (g.call p)) ∨ GraceDone c (s.step (g.call p)) := by
  rcases h with ⟨hpeer, hcount, hnil, hwait⟩ | ⟨hpeer, hconn, hsince, hcs, hcount, hnil⟩
  · cases g with
    | detach now =>
      left
      refine ⟨?_, ?_, ?_, ?_⟩
      · simp [GraceStep.call, SingleSessionManager.step, SingleSession.DisconnectWebSocketPeer,
          hpeer]
      · simp [GraceStep.call, SingleSessionManager.step, SingleSession.DisconnectWebSocketPeer,
          hpeer, hcount]
      · intro t ht
        simp only [GraceStep.call, SingleSessionManager.step,
          SingleSession.DisconnectWebSocketPeer, hpeer, ne_eq, not_true_eq_false, if_false,
          if_true, List.mem_append, List.mem_singleton] at ht
        rcases ht with ht | ht
        · exact hnil t ht
        · subst ht; simp
      · obtain ⟨u, hu, hup⟩ := hwait
        refine ⟨u, ?_, hup⟩
        simp [GraceStep.call, SingleSessionManager.step, SingleSession.DisconnectWebSocketPeer,
          hpeer, hu]
    | fire i now =>
      simp only [GraceStep.call, SingleSessionManager.step, SingleSession.graceTimerFires]
      cases hi : s.timers.get? i with
      | none => left; exact ⟨hpeer, hcount, hnil, hwait⟩
      | some t =>
        have hsub : ∀ u ∈ s.timers.eraseIdx i, u.peer ≠ none :=
          fun u hu => hnil u (List.mem_of_mem_eraseIdx hu)
        by_cases ht : t.peer = some p
        · right
          simp only [SingleSession.graceTimerBody, hpeer, ht, if_true]
          refine ⟨rfl, rfl, rfl, rfl, ?_, hsub⟩
          simp only [SingleSession.disconnectNow, SingleSessionManager.emit, List.append_assoc]
          rw [countEvent_append, hcount]
          rfl
        · left
          have hne : ¬ (some p = t.peer) := fun e => ht e.symm
          simp only [SingleSession.graceTimerBody, hpeer, hne, if_false]
          exact ⟨hpeer, hcount, hsub, timers_keep_waiting _ i t p hi ht hwait⟩
  · right
    cases g with
    | detach now =>
      simp only [GraceStep.call, SingleSessionManager.step,
        SingleSession.DisconnectWebSocketPeer, hpeer]
      simp only [ne_eq, reduceCtorEq, not_false_eq_true, if_true]
      exact ⟨hpeer, hconn, hsince, hcs, hcount, hnil⟩
    | fire i now =>
      simp only [GraceStep.call, SingleSessionManager.step, SingleSession.graceTimerFires]
      cases hi : s.timers.get? i with
      | none => exact ⟨hpeer, hconn, hsince, hcs, hcount, hnil⟩
      | some t =>
        have hsub : ∀ u ∈ s.timers.eraseIdx i, u.peer ≠ none :=
          fun u hu => hnil u (List.mem_of_mem_eraseIdx hu)
        have ht : ¬ (none = t.peer) :=
          fun e => hnil t (List.get?_mem hi) e.symm
        simp only [SingleSession.graceTimerBody, hpeer, ht, if_false]
        exact ⟨hpeer, hconn, hsince, hcs, hcount, hsub⟩

theorem grace_run_phase (p c : Nat) (steps : List GraceStep) :
    ∀ (s : SingleSessionManager), GraceWaiting p c s ∨ GraceDone c s →
      GraceWaiting p c (runCalls s (steps.map (GraceStep.call p)))
      ∨ GraceDone c (runCalls s (steps.map (GraceStep.call p))) := by
  induction steps with
  | nil => intro s h; simpa [runCalls] using h
  | cons g rest ih =>
    intro s h
    have h1 := grace_step_phase p c s g h
    simpa [runCalls] using ih _ h1

/-- C5. For every peer `p` and every manager state in which no sleeping goroutine captured
nil: attach `p`, request the delayed detach of `p`, then let further delayed detaches of
`p` and wake-ups of sleeping goroutines follow in any order and number, with no attach.
Once every goroutine has woken up, the session is disconnected (`IsConnected` false,
`NotConnectedSince` set, `ConnectedSince` unset, no peer recorded) and the run has emitted
the disconnected event exactly once. -/
theorem C5_grace_timer_disconnects_once (m : SingleSessionManager) (p t0 t1 : Nat)
    (steps : List GraceStep)
    (hclean : ∀ t ∈ m.timers, t.peer ≠ none)
    (hfired : (runCalls (SingleSession.ConnectWebSocketPeer m (some p) t0)
      ((GraceStep.detach t1 :: steps).map (GraceStep.call p))).timers = []) :
    let final := runCalls (SingleSession.ConnectWebSocketPeer m (some p) t0)
      ((GraceStep.detach t1 :: steps).map (GraceStep.call p))
    final.session.state.IsConnected = false
    ∧ final.session.state.NotConnectedSince.isSome = true
    ∧ final.session.state.ConnectedSince = none
    ∧ final.session.websocketPeer = none
    ∧ countEvent "disconnected" final.emitted = countEvent "disconnected" m.emitted + 1 := by
  intro final
  have hstart : GraceWaiting p (countEvent "disconnected" m.emitted)
      ((SingleSession.ConnectWebSocketPeer m (some p) t0).step
        ((GraceStep.detach t1).call p)) := by
    refine ⟨?_, ?_, ?_, ?_⟩
    · simp [GraceStep.call, SingleSessionManager.step, SingleSession.DisconnectWebSocketPeer,
        SingleSession.ConnectWebSocketPeer, SingleSessionManager.emit]
    · simp [GraceStep.call, SingleSessionManager.step, SingleSession.DisconnectWebSocketPeer,
        SingleSession.ConnectWebSocketPeer, SingleSessionManager.emit, countEvent,
        List.filter_append, List.filter_cons]
    · intro t ht
      simp only [GraceStep.call, SingleSessionManager.step,
        SingleSession.DisconnectWebSocketPeer, SingleSession.ConnectWebSocketPeer,
        SingleSessionManager.emit, ne_eq, not_true_eq_false, if_false, if_true,
        List.mem_append, List.mem_singleton] at ht
      rcases ht with ht | ht
      · exact hclean t ht
      · subst ht; simp
    · refine ⟨{ peer := some p, wake := t1 + graceWindow }, ?_, rfl⟩
      simp [GraceStep.call, SingleSessionManager.step, SingleSession.DisconnectWebSocketPeer,
        SingleSession.ConnectWebSocketPeer, SingleSessionManager.emit]
  have hrun := grace_run_phase p (countEvent "disconnected" m.emitted) steps _ (Or.inl hstart)
  have hfinal : final = runCalls ((SingleSession.ConnectWebSocketPeer m (some p) t0).step
      ((GraceStep.detach t1).call p)) (steps.map (GraceStep.call p)) := by
    simp [final, runCalls]
  rw [← hfinal] at hrun
  rcases hrun with ⟨_, _, _, u, hu, _⟩ | ⟨hpeer, hconn, hsince, hcs, hcount, _⟩
  · have hempty : final.timers = [] := hfired
    rw [hempty] at hu
    exact absurd hu (List.not_mem_nil u)
  · exact ⟨hconn, hsince, hcs, hpeer, hcount⟩

/-- C5 on a fresh manager, peer 1: three delayed detaches, the goroutines waking up in the
order second, first, third. -/
theorem C5_grace_timer_disconnects_once_witness :
    countEvent "disconnected"
      (runCalls (SingleSession.ConnectWebSocketPeer (NewSingleSessionManager "secret") (some 1) 10)
        ((GraceStep.detach 20 ::
          [GraceStep.detach 21, .detach 22, .fire 1 25000000020, .fire 0 25000000021,
           .fire 0 25000000022]).map (GraceStep.call 1))).emitted
      = countEvent "disconnected" (NewSingleSessionManager "secret").emitted + 1 :=
  (C5_grace_timer_disconnects_once (NewSingleSessionManager "secret") 1 10 20
    [.detach 21, .detach 22, .fire 1 25000000020, .fire 0 25000000021, .fire 0 25000000022]
    (by simp [NewSingleSessionManager]) (by decide)).2.2.2.2

/-! ## Claims on the session manager -/

theorem SetCursor_get (m : SingleSessionManager) (cursor : Cursor) (session sess : SessionRef) :
    mapGet (m.SetCursor cursor session).cursors sess
      = if session = sess then some ((mapGet m.cursors sess).getD [] ++ [cursor])
        else mapGet m.cursors sess := by
  by_cases h : session = sess
  · subst h
    simp [SingleSessionManager.SetCursor, mapGet_mapSet_self]
  · have h2 : sess ≠ session := fun e => h e.symm
    simp [SingleSessionManager.SetCursor, mapGet_mapSet_ne _ _ _ _ h2, h]

theorem queuedFor_cons (c : Cursor × SessionRef) (rest : List (Cursor × SessionRef))
    (sess : SessionRef) :
    queuedFor (c :: rest) sess
      = if c.2 = sess then c.1 :: queuedFor rest sess else queuedFor rest sess := by
  by_cases hc : c.2 = sess <;> simp [queuedFor, List.filter_cons, hc]

theorem setCursors_get (calls : List (Cursor × SessionRef)) :
    ∀ (m : SingleSessionManager) (sess : SessionRef),
      mapGet (setCursors m calls).cursors sess
        = if queuedFor calls sess = [] then mapGet m.cursors sess
          else some ((mapGet m.cursors sess).getD [] ++ queuedFor calls sess) := by
  induction calls with
  | nil => intro m sess; simp [setCursors, queuedFor]
  | cons c rest ih =>
    intro m sess
    have hstep : setCursors m (c :: rest) = setCursors (m.SetCursor c.1 c.2) rest := rfl
    rw [hstep, ih, SetCursor_get, queuedFor_cons]
    by_cases hc : c.2 = sess
    · by_cases hq : queuedFor rest sess = [] <;> simp [hc, hq]
    · by_cases hq : queuedFor rest sess = [] <;> simp [hc, hq]

/-- C6. Start right after a `PopCursors` and make any sequence of `SetCursor(cursor,
session)` calls. The map the next `PopCursors` returns has, for each session, exactly the
cursors queued for it in the order of the calls, and no entry for a session without a
queued cursor; a `PopCursors` right after that returns the empty map. -/
theorem C6_pop_cursors_drains_in_order (m : SingleSessionManager)
    (calls : List (Cursor × SessionRef)) :
    let popped := (setCursors m.PopCursors.2 calls).PopCursors
    (∀ sess, mapGet popped.1 sess
        = if queuedFor calls sess = [] then none else some (queuedFor calls sess))
    ∧ popped.2.PopCursors.1 = []
    ∧ (∀ sess, mapGet popped.2.PopCursors.1 sess = none) := by
  refine ⟨?_, rfl, fun _ => rfl⟩
  intro sess
  have h := setCursors_get calls m.PopCursors.2 sess
  simpa [SingleSessionManager.PopCursors, mapGet] using h

/-- C7. For every manager and request, `Authenticate` decides on the token the spec
describes (the first non-empty value among header, query token, query password): it
returns the manager's session and no error when that token equals the configured one, and
no session and the invalid-token error otherwise. A non-empty header makes the query
irrelevant, and with an empty header a non-empty query token makes the password
irrelevant; with an empty header and an empty query token the password decides. -/
theorem C7_authenticate_token_order (m : SingleSessionManager) (r : Request) :
    m.Authenticate r
      = (if specResolvedToken r = m.token then (some m.session, none)
         else (none, some .invalidToken))
    ∧ (r.Header "Authorization" ≠ "" → specResolvedToken r = r.Header "Authorization")
    ∧ (r.Header "Authorization" = "" → r.Query "token" ≠ "" →
        specResolvedToken r = r.Query "token")
    ∧ (r.Header "Authorization" = "" → r.Query "token" = "" →
        specResolvedToken r = r.Query "password")
    ∧ (∀ r2 : Request, r.Header "Authorization" ≠ "" →
        r2.Header "Authorization" = r.Header "Authorization" →
        m.Authenticate r2 = m.Authenticate r)
    ∧ (∀ r2 : Request, r.Header "Authorization" = "" → r.Query "token" ≠ "" →
        r2.Header "Authorization" = "" → r2.Query "token" = r.Query "token" →
        m.Authenticate r2 = m.Authenticate r) := by
  have key : ∀ x : Request, m.Authenticate x
      = (if specResolvedToken x = m.token then (some m.session, none)
         else (none, some .invalidToken)) := by
    intro x
    simp only [SingleSessionManager.Authenticate, specResolvedToken]
    by_cases h1 : x.Header "Authorization" = ""
    · by_cases h2 : x.Query "token" = ""
      · by_cases h3 : x.Query "password" = "" <;> simp [h1, h2, h3, List.find?]
      · simp [h1, h2, List.find?]
    · simp [h1, List.find?]
  have hhead : ∀ x : Request, x.Header "Authorization" ≠ "" →
      specResolvedToken x = x.Header "Authorization" := by
    intro x h1
    simp [specResolvedToken, List.find?, h1]
  have htok : ∀ x : Request, x.Header "Authorization" = "" → x.Query "token" ≠ "" →
      specResolvedToken x = x.Query "token" := by
    intro x h1 h2
    simp [specResolvedToken, List.find?, h1, h2]
  refine ⟨key r, hhead r, htok r, ?_, ?_, ?_⟩
  · intro h1 h2
    by_cases h3 : r.Query "password" = "" <;> simp [specResolvedToken, List.find?, h1, h2, h3]
  · intro r2 h1 h2
    rw [key r2, key r, hhead r h1, hhead r2 (h2 ▸ h1), h2]
  · intro r2 h1 h2 h3 h4
    rw [key r2, key r, htok r h1 h2, htok r2 h3 (h4 ▸ h2), h4]

/-- C7 at concrete requests against the token "secret": the header wins over both query
parameters, whether it is right or wrong; the query token wins over the password; and a
request whose three values all differ from the token is refused. -/
theorem C7_authenticate_token_order_witness :
    ((NewSingleSessionManager "secret").Authenticate (requestWith "secret" "x" "y")
        = (some (NewSingleSessionManager "secret").session, none))
    ∧ ((NewSingleSessionManager "secret").Authenticate (requestWith "bad" "secret" "secret")
        = (none, some .invalidToken))
    ∧ specResolvedToken (requestWith "" "tok" "secret") = "tok" := by
  have h1 := (C7_authenticate_token_order (NewSingleSessionManager "secret")
    (requestWith "secret" "x" "y")).1
  have h2 := (C7_authenticate_token_order (NewSingleSessionManager "secret")
    (requestWith "bad" "secret" "secret")).1
  have h3 := (C7_authenticate_token_order (NewSingleSessionManager "secret")
    (requestWith "" "tok" "secret")).2.2.1 (by decide) (by decide)
  refine ⟨?_, ?_, ?_⟩
  · rw [h1]; decide
  · rw [h2]; decide
  · rw [h3]; decide

/-- C9. For every manager, id and profile: `Create` returns no session, the empty token
and the creation-not-supported error, `Update` and `Delete` return their not-supported
errors, and each leaves the manager as it was, so that `List`, `Get`, `GetByToken`,
`GetHost` and `Settings` answer as before. -/
theorem C9_mutations_not_supported (m : SingleSessionManager) (id : String)
    (profile : MemberProfile) :
    (m.Create id profile).1 = (none, "", some .creationNotSupported)
    ∧ (m.Update id profile).1 = some .updateNotSupported
    ∧ (m.Delete id).1 = some .deletionNotSupported
    ∧ (m.Create id profile).2 = m ∧ (m.Update id profile).2 = m ∧ (m.Delete id).2 = m
    ∧ (∀ m2 ∈ [(m.Create id profile).2, (m.Update id profile).2, (m.Delete id).2],
        m2.List = m.List ∧ m2.GetHost = m.GetHost ∧ m2.Settings = m.Settings
        ∧ (∀ k, m2.Get k = m.Get k) ∧ (∀ k, m2.GetByToken k = m.GetByToken k)) := by
  refine ⟨rfl, rfl, rfl, rfl, rfl, rfl, ?_⟩
  intro m2 hm2
  simp only [SingleSessionManager.Create, SingleSessionManager.Update,
    SingleSessionManager.Delete, List.mem_cons, List.mem_singleton, List.not_mem_nil,
    or_false, or_self] at hm2
  subst hm2
  exact ⟨rfl, rfl, rfl, fun _ => rfl, fun _ => rfl⟩

/-- No call assigns the identity, the token or the profile of the session. -/
theorem step_keeps_identity (m : SingleSessionManager) (c : AgentCall) :
    (m.step c).session.id = m.session.id
    ∧ (m.step c).session.token = m.session.token
    ∧ (m.step c).session.profile = m.session.profile := by
  cases c with
  | Create _ _ => exact ⟨rfl, rfl, rfl⟩
  | Update _ _ => exact ⟨rfl, rfl, rfl⟩
  | Delete _ => exact ⟨rfl, rfl, rfl⟩
  | Disconnect id =>
    simp only [SingleSessionManager.step, SingleSessionManager.Disconnect]
    split_ifs <;> exact ⟨rfl, rfl, rfl⟩
  | SetCursor _ _ => exact ⟨rfl, rfl, rfl⟩
  | PopCursors => exact ⟨rfl, rfl, rfl⟩
  | Broadcast event payload exclude =>
    simp only [SingleSessionManager.step, SingleSessionManager.Broadcast, SingleSession.Send]
    split_ifs
    · exact ⟨rfl, rfl, rfl⟩
    · cases m.session.websocketPeer <;> exact ⟨rfl, rfl, rfl⟩
    · exact ⟨rfl, rfl, rfl⟩
  | AdminBroadcast event payload exclude =>
    simp only [SingleSessionManager.step, SingleSessionManager.AdminBroadcast,
      SingleSessionManager.Broadcast, SingleSession.Send]
    split_ifs
    · exact ⟨rfl, rfl, rfl⟩
    · cases m.session.websocketPeer <;> exact ⟨rfl, rfl, rfl⟩
    · exact ⟨rfl, rfl, rfl⟩
  | InactiveCursorsBroadcast _ _ _ => exact ⟨rfl, rfl, rfl⟩
  | On _ => exact ⟨rfl, rfl, rfl⟩
  | UpdateSettingsFunc session f =>
    simp only [SingleSessionManager.step, SingleSessionManager.UpdateSettingsFunc]
    split_ifs <;> exact ⟨rfl, rfl, rfl⟩
  | CookieSetToken _ => exact ⟨rfl, rfl, rfl⟩
  | CookieClearToken => exact ⟨rfl, rfl, rfl⟩
  | Read => exact ⟨rfl, rfl, rfl⟩
  | SetAsHost => exact ⟨rfl, rfl, rfl⟩
  | SetAsHostBy _ => exact ⟨rfl, rfl, rfl⟩
  | ClearHost => exact ⟨rfl, rfl, rfl⟩
  | SessionSetCursor _ => exact ⟨rfl, rfl, rfl⟩
  | ConnectWebSocketPeer _ _ => exact ⟨rfl, rfl, rfl⟩
  | DisconnectWebSocketPeer peer delayed now =>
    simp only [SingleSessionManager.step, SingleSession.DisconnectWebSocketPeer]
    split_ifs <;> exact ⟨rfl, rfl, rfl⟩
  | GraceTimerFires i now =>
    simp only [SingleSessionManager.step, SingleSession.graceTimerFires]
    cases m.timers.get? i with
    | none => exact ⟨rfl, rfl, rfl⟩
    | some t =>
      simp only [SingleSession.graceTimerBody]
      split_ifs <;> exact ⟨rfl, rfl, rfl⟩
  | DestroyWebSocketPeer reason now =>
    simp only [SingleSessionManager.step, SingleSession.DestroyWebSocketPeer]
    cases m.session.websocketPeer <;> exact ⟨rfl, rfl, rfl⟩
  | Send event payload =>
    simp only [SingleSessionManager.step, SingleSession.Send]
    cases m.session.websocketPeer <;> exact ⟨rfl, rfl, rfl⟩
  | SetWebRTCPeer _ => exact ⟨rfl, rfl, rfl⟩
  | SetWebRTCConnected peer connected now =>
    simp only [SingleSessionManager.step, SingleSession.SetWebRTCConnected]
    split_ifs <;> exact ⟨rfl, rfl, rfl⟩

theorem runCalls_keeps_identity (calls : List AgentCall) :
    ∀ (m : SingleSessionManager),
      (runCalls m calls).session.id = m.session.id
      ∧ (runCalls m calls).session.token = m.session.token
      ∧ (runCalls m calls).session.profile = m.session.profile := by
  induction calls with
  | nil => intro m; exact ⟨rfl, rfl, rfl⟩
  | cons c rest ih =>
    intro m
    have h1 := step_keeps_identity m c
    have h2 := ih (m.step c)
    have hrun : runCalls m (c :: rest) = runCalls (m.step c) rest := rfl
    rw [hrun]
    exact ⟨h2.1.trans h1.1, h2.2.1.trans h1.2.1, h2.2.2.trans h1.2.2⟩

/-- C10. In the state after any sequence of manager and session calls on the manager that
`NewSingleSessionManager token` built, `GetHost` returns the manager's session with ok
true; this session has the id "agent", the token and the profile it was created with,
`IsHost` answers true, and every capability of the profile is set. -/
theorem C10_agent_is_always_host (token : String) (calls : List AgentCall) :
    let m := runCalls (NewSingleSessionManager token) calls
    m.GetHost = (some m.session, true)
    ∧ m.session.ID = "agent"
    ∧ m.session.token = token
    ∧ m.session.IsHost = true
    ∧ m.session.Profile = agentProfile
    ∧ m.session.Profile.IsAdmin = true ∧ m.session.Profile.CanLogin = true
    ∧ m.session.Profile.CanConnect = true ∧ m.session.Profile.CanWatch = true
    ∧ m.session.Profile.CanHost = true ∧ m.session.Profile.CanAccessClipboard = true := by
  intro m
  obtain ⟨hid, htok, hprof⟩ := runCalls_keeps_identity calls (NewSingleSessionManager token)
  have hp : m.session.Profile = agentProfile := hprof
  refine ⟨rfl, hid, htok, rfl, hp, ?_, ?_, ?_, ?_, ?_, ?_⟩ <;> rw [hp] <;> rfl

/-! ## Claims on the screen size -/

/-- C11. For every manager that drives the Darwin backend, every requested size and every
platform answer: `SetScreenSize` returns the size `GetScreenSize` reports in the same
situation together with the resolution-not-supported error, the manager's cached size is
the same after the call as before it, and `GetScreenSize` reports the same size after the
call. -/
theorem C11_darwin_resolution_unsupported (m : DesktopManagerCtx) (d : DarwinBackend)
    (size : ScreenSize) (host : Host) (hd : m.backend = .darwin d) :
    (m.SetScreenSize size host).1
      = ((m.GetScreenSize host).1, some BackendError.resolutionNotSupported)
    ∧ (m.SetScreenSize size host).1.1
      = { d.screenSize with Width := host.screen.1, Height := host.screen.2 }
    ∧ (m.SetScreenSize size host).2.screenSize = m.screenSize
    ∧ ((m.SetScreenSize size host).2.GetScreenSize host).1 = (m.GetScreenSize host).1 := by
  simp [DesktopManagerCtx.SetScreenSize, DesktopManagerCtx.GetScreenSize,
    DesktopManagerCtx.log, Backend.SetScreenSize, Backend.GetScreenSize,
    DarwinBackend.SetScreenSize, DarwinBackend.GetScreenSize, hd]

/-- C11 at the macOS manager of the stuck-input example: the request of 1280x720 at 60 Hz
on a 1920x1080 screen returns 1920x1080 and the error, and the cached size stays. -/
theorem C11_darwin_resolution_unsupported_witness :
    (stuckInputManager.SetScreenSize { Width := 1280, Height := 720, Rate := 60 }
        { screen := (1920, 1080)
          change := ({ Width := 1280, Height := 720, Rate := 60 }, none) }).1
      = ((stuckInputManager.GetScreenSize
            { screen := (1920, 1080)
              change := ({ Width := 1280, Height := 720, Rate := 60 }, none) }).1,
         some BackendError.resolutionNotSupported)
    ∧ (stuckInputManager.SetScreenSize { Width := 1280, Height := 720, Rate := 60 }
        { screen := (1920, 1080)
          change := ({ Width := 1280, Height := 720, Rate := 60 }, none) }).2.screenSize
      = stuckInputManager.screenSize :=
  ⟨(C11_darwin_resolution_unsupported stuckInputManager _ _ _ rfl).1,
    (C11_darwin_resolution_unsupported stuckInputManager _ _ _ rfl).2.2.1⟩

/-- C12. For every manager, requested size and platform answer, `SetScreenSize` returns
the size and the error of the backend call as they are; the cached size afterwards is the
returned size when the error is nil and the former cached size otherwise. With the Xorg
backend, `GetScreenSize` afterwards returns the returned size when the call succeeded, and
what it returned before the call when it failed. -/
theorem C12_cached_size_follows_success (m : DesktopManagerCtx) (size : ScreenSize)
    (host : Host) :
    (m.SetScreenSize size host).1 = (m.backend.SetScreenSize size host).1
    ∧ ((m.SetScreenSize size host).1.2 = none →
        (m.SetScreenSize size host).2.screenSize = (m.SetScreenSize size host).1.1)
    ∧ ((m.SetScreenSize size host).1.2 ≠ none →
        (m.SetScreenSize size host).2.screenSize = m.screenSize)
    ∧ (∀ (x : XorgBackend) (later : Host), m.backend = .xorg x →
        ((m.SetScreenSize size host).1.2 = none →
          ((m.SetScreenSize size host).2.GetScreenSize later).1
            = (m.SetScreenSize size host).1.1)
        ∧ ((m.SetScreenSize size host).1.2 ≠ none →
          ((m.SetScreenSize size host).2.GetScreenSize later).1
            = (m.GetScreenSize host).1)) := by
  have hres : (m.SetScreenSize size host).1 = (m.backend.SetScreenSize size host).1 := rfl
  have hcache : (m.SetScreenSize size host).2.screenSize
      = match (m.backend.SetScreenSize size host).1.2 with
        | none => (m.backend.SetScreenSize size host).1.1
        | some _ => m.screenSize := by
    simp only [DesktopManagerCtx.SetScreenSize, DesktopManagerCtx.log]
    cases (Backend.SetScreenSize m.backend size host).1.2 <;> rfl
  refine ⟨hres, ?_, ?_, ?_⟩
  · intro h
    rw [hres] at h
    rw [hcache, hres, h]
  · intro h
    rw [hres] at h
    rw [hcache]
    cases hr : (m.backend.SetScreenSize size host).1.2 with
    | none => exact absurd hr h
    | some e => rfl
  · intro x later hx
    simp only [DesktopManagerCtx.SetScreenSize, DesktopManagerCtx.GetScreenSize,
      DesktopManagerCtx.log, Backend.SetScreenSize, Backend.GetScreenSize,
      XorgBackend.SetScreenSize, XorgBackend.GetScreenSize, hx]
    cases hc : host.change.2 <;> simp [hc]

/-- C12 at the Linux example manager: a successful change to 1280x720 at 60 Hz is cached
and reported by `GetScreenSize`; a failed one leaves the cached size as it was. -/
theorem C12_cached_size_follows_success_witness :
    ((linuxInputManager.SetScreenSize { Width := 1280, Height := 720, Rate := 60 }
        { screen := (0, 0)
          change := ({ Width := 1280, Height := 720, Rate := 60 }, none) }).2.screenSize
      = { Width := 1280, Height := 720, Rate := 60 })
    ∧ ((linuxInputManager.SetScreenSize { Width := 1280, Height := 720, Rate := 60 }
        { screen := (0, 0)
          change := ({ Width := 1920, Height := 1080, Rate := 60 },
                     some (.foreign "unknown screen configuration")) }).2.screenSize
      = linuxInputManager.screenSize) :=
  ⟨(C12_cached_size_follows_success linuxInputManager _ _).2.1 rfl,
    (C12_cached_size_follows_success linuxInputManager _ _).2.2.1 (by decide)⟩

/-! ## Claims on the signaling peer of the session -/

/-- C13, evaluated on the code: on a fresh manager attach peer 1 at clock 10, detach it at
once at clock 20 and attach peer 2 at clock 30. `ConnectWebSocketPeer` sets
`ConnectedSince` and leaves `NotConnectedSince` as the detach set it, so both are set. -/
theorem C13_reattach_leaves_both_timestamps :
    (runCalls (NewSingleSessionManager "secret")
        [.ConnectWebSocketPeer (some 1) 10, .DisconnectWebSocketPeer (some 1) false 20,
         .ConnectWebSocketPeer (some 2) 30]).session.state.ConnectedSince = some 30
    ∧ (runCalls (NewSingleSessionManager "secret")
        [.ConnectWebSocketPeer (some 1) 10, .DisconnectWebSocketPeer (some 1) false 20,
         .ConnectWebSocketPeer (some 2) 30]).session.state.NotConnectedSince = some 20 := by
  constructor <;> rfl

/-- C14. For every manager state, peer `p` and clock `now`, `ConnectWebSocketPeer p` records
`p`, sets `IsConnected` and sets `ConnectedSince` to `now`; `IsWatching`, `WatchingSince`,
`NotWatchingSince` and the streaming peer are as before; the emissions grow by exactly
connected then state_changed, each carrying the session. -/
theorem C14_connect_websocket_peer (m : SingleSessionManager) (p : WebSocketPeer)
    (now : Nat) :
    let m1 := SingleSession.ConnectWebSocketPeer m p now
    m1.session.websocketPeer = p
    ∧ m1.session.state.IsConnected = true
    ∧ m1.session.state.ConnectedSince = some now
    ∧ m1.session.state.IsWatching = m.session.state.IsWatching
    ∧ m1.session.state.WatchingSince = m.session.state.WatchingSince
    ∧ m1.session.state.NotWatchingSince = m.session.state.NotWatchingSince
    ∧ m1.session.webrtcPeer = m.session.webrtcPeer
    ∧ m1.emitted = m.emitted ++
        [{ event := "connected", payload := [.session .own] },
         { event := "state_changed", payload := [.session .own] }]
    ∧ m1.peerLog = m.peerLog := by
  simp [SingleSession.ConnectWebSocketPeer, SingleSessionManager.emit]

/-- In a run in which the listeners return, the immediate detach of the recorded peer `p`
at clock `now` clears the recorded peer, unsets `IsConnected`, sets `NotConnectedSince` to
`now`, unsets `ConnectedSince`, leaves the watching fields and the streaming peer as they
were, starts no goroutine, and the emissions grow by disconnected then state_changed. -/
theorem disconnect_immediately_when_listeners_return (m : SingleSessionManager)
    (p : WebSocketPeer) (now : Nat) (hp : m.session.websocketPeer = p) :
    let m1 := SingleSession.DisconnectWebSocketPeer m p false now
    m1.session.websocketPeer = none
    ∧ m1.session.state.IsConnected = false
    ∧ m1.session.state.NotConnectedSince = some now
    ∧ m1.session.state.ConnectedSince = none
    ∧ m1.session.state.IsWatching = m.session.state.IsWatching
    ∧ m1.session.state.WatchingSince = m.session.state.WatchingSince
    ∧ m1.session.state.NotWatchingSince = m.session.state.NotWatchingSince
    ∧ m1.session.webrtcPeer = m.session.webrtcPeer
    ∧ m1.timers = m.timers
    ∧ m1.emitted = m.emitted ++
        [{ event := "disconnected", payload := [.session .own] },
         { event := "state_changed", payload := [.session .own] }] := by
  simp [SingleSession.DisconnectWebSocketPeer, SingleSession.disconnectNow,
    SingleSessionManager.emit, hp]

/-- With no listener that reads the session registered for disconnected or state_changed,
`DisconnectWebSocketPeer` under the mutex returns what the run with returning listeners
gives. -/
theorem disconnect_held_returns_without_reader (listeners : List Listener)
    (m : SingleSessionManager) (p : WebSocketPeer) (delayed : Bool) (now : Nat)
    (hquiet : ∀ l ∈ listeners, l.body = ListenerBody.readsSession →
      l.event ≠ "disconnected" ∧ l.event ≠ "state_changed") :
    SingleSession.DisconnectWebSocketPeerHeld listeners m p delayed now
      = .returned (SingleSession.DisconnectWebSocketPeer m p delayed now) := by
  have hany : ∀ event : String, event = "disconnected" ∨ event = "state_changed" →
      listeners.any (fun l => decide (l.event = event)
        && decide (l.body = ListenerBody.readsSession)) = false := by
    intro event hevent
    rw [List.any_eq_false]
    intro l hl
    simp only [Bool.and_eq_true, decide_eq_true_eq, not_and]
    intro he hb
    have hq := hquiet l hl hb
    rcases hevent with h | h
    · exact hq.1 (he.trans h)
    · exact hq.2 (he.trans h)
  have h1 := hany "disconnected" (Or.inl rfl)
  have h2 := hany "state_changed" (Or.inr rfl)
  by_cases hpeer : m.session.websocketPeer = p
  · cases delayed with
    | true =>
      simp [SingleSession.DisconnectWebSocketPeerHeld, SingleSession.DisconnectWebSocketPeer,
        hpeer]
    | false =>
      simp [SingleSession.DisconnectWebSocketPeerHeld, SingleSession.DisconnectWebSocketPeer,
        SingleSession.disconnectNowHeld, SingleSession.disconnectNow, emitToListeners,
        h1, h2, hpeer]
  · simp [SingleSession.DisconnectWebSocketPeerHeld, SingleSession.DisconnectWebSocketPeer,
      hpeer]

/-- With a listener that reads the session registered for disconnected, the immediate
detach of the recorded peer blocks in the first `Emit`: the fields are assigned,
disconnected is emitted, state_changed is not, and the call does not return. -/
theorem disconnect_held_blocks_with_reader (listeners : List Listener)
    (m : SingleSessionManager) (p : WebSocketPeer) (now : Nat)
    (hp : m.session.websocketPeer = p)
    (hreader : { event := "disconnected", body := ListenerBody.readsSession } ∈ listeners) :
    (SingleSession.DisconnectWebSocketPeerHeld listeners m p false now).returns = false
    ∧ (SingleSession.DisconnectWebSocketPeerHeld listeners m p false now).manager.emitted
        = m.emitted ++ [{ event := "disconnected", payload := [.session .own] }] := by
  have hany : listeners.any (fun l => decide (l.event = "disconnected")
      && decide (l.body = ListenerBody.readsSession)) = true := by
    rw [List.any_eq_true]
    exact ⟨_, hreader, by simp⟩
  simp [SingleSession.DisconnectWebSocketPeerHeld, SingleSession.disconnectNowHeld,
    emitToListeners, hany, hp, CallEnd.returns, CallEnd.manager, SingleSessionManager.emit]

/-- C15, evaluated on the code: peer 1 is attached to the session of a fresh manager and a
listener registered for disconnected reads the session it is handed. The immediate detach
of peer 1 at clock 20 assigns the connection fields, emits disconnected and then blocks in
that `Emit`, the mutex being held: it does not return and state_changed is not emitted.
With the same listener `DestroyWebSocketPeer`, which releases the mutex before it emits,
returns after both emissions; and without the listener the detach returns after both. -/
theorem C15_immediate_detach_blocks_in_emit :
    (SingleSession.DisconnectWebSocketPeerHeld
        [{ event := "disconnected", body := .readsSession }]
        (SingleSession.ConnectWebSocketPeer (NewSingleSessionManager "secret") (some 1) 10)
        (some 1) false 20).returns = false
    ∧ (SingleSession.DisconnectWebSocketPeerHeld
        [{ event := "disconnected", body := .readsSession }]
        (SingleSession.ConnectWebSocketPeer (NewSingleSessionManager "secret") (some 1) 10)
        (some 1) false 20).manager.emitted
      = [{ event := "connected", payload := [.session .own] },
         { event := "state_changed", payload := [.session .own] },
         { event := "disconnected", payload := [.session .own] }]
    ∧ (SingleSession.DisconnectWebSocketPeerHeld
        [{ event := "disconnected", body := .readsSession }]
        (SingleSession.ConnectWebSocketPeer (NewSingleSessionManager "secret") (some 1) 10)
        (some 1) false 20).manager.session.state.NotConnectedSince = some 20
    ∧ (SingleSession.DestroyWebSocketPeerReleased
        [{ event := "disconnected", body := .readsSession }]
        (SingleSession.ConnectWebSocketPeer (NewSingleSessionManager "secret") (some 1) 10)
        "kicked" 20).returns = true
    ∧ (SingleSession.DestroyWebSocketPeerReleased
        [{ event := "disconnected", body := .readsSession }]
        (SingleSession.ConnectWebSocketPeer (NewSingleSessionManager "secret") (some 1) 10)
        "kicked" 20).manager.emitted
      = [{ event := "connected", payload := [.session .own] },
         { event := "state_changed", payload := [.session .own] },
         { event := "disconnected", payload := [.session .own] },
         { event := "state_changed", payload := [.session .own] }]
    ∧ SingleSession.DisconnectWebSocketPeerHeld []
        (SingleSession.ConnectWebSocketPeer (NewSingleSessionManager "secret") (some 1) 10)
        (some 1) false 20
      = .returned (SingleSession.DisconnectWebSocketPeer
          (SingleSession.ConnectWebSocketPeer (NewSingleSessionManager "secret") (some 1) 10)
          (some 1) false 20) := by
  refine ⟨?_, ?_, ?_, ?_, ?_, ?_⟩ <;> decide

/-- C16. For every manager state, reason and clock `now`, `DestroyWebSocketPeer reason`
calls `Destroy(reason)` once on the recorded peer when there is one and makes no call on a
peer otherwise; afterwards no peer is recorded, `IsConnected` is false, `NotConnectedSince`
is `now`, `ConnectedSince` is unset, and the emissions have grown by exactly disconnected
then state_changed. -/
theorem C16_destroy_websocket_peer (m : SingleSessionManager) (reason : String)
    (now : Nat) :
    let m1 := SingleSession.DestroyWebSocketPeer m reason now
    (∀ peer, m.session.websocketPeer = some peer →
        m1.peerLog = m.peerLog ++ [PeerCall.Destroy peer reason])
    ∧ (m.session.websocketPeer = none → m1.peerLog = m.peerLog)
    ∧ m1.session.websocketPeer = none
    ∧ m1.session.state.IsConnected = false
    ∧ m1.session.state.NotConnectedSince = some now
    ∧ m1.session.state.ConnectedSince = none
    ∧ m1.emitted = m.emitted ++
        [{ event := "disconnected", payload := [.session .own] },
         { event := "state_changed", payload := [.session .own] }] := by
  simp only [SingleSession.DestroyWebSocketPeer, SingleSessionManager.emit]
  cases h : m.session.websocketPeer <;> simp

/-- C16 on a fresh manager to which peer 1 was attached: one `Destroy` on peer 1. -/
theorem C16_destroy_websocket_peer_witness :
    (SingleSession.DestroyWebSocketPeer
        (SingleSession.ConnectWebSocketPeer (NewSingleSessionManager "secret") (some 1) 10)
        "kicked" 20).peerLog
      = (SingleSession.ConnectWebSocketPeer (NewSingleSessionManager "secret") (some 1)
          10).peerLog ++ [PeerCall.Destroy 1 "kicked"] :=
  (C16_destroy_websocket_peer
    (SingleSession.ConnectWebSocketPeer (NewSingleSessionManager "secret") (some 1) 10)
    "kicked" 20).1 1 rfl

/-! ## Claims on the streaming peer of the session -/

/-- C17. For every manager state whose session has the streaming peer `p`, every boolean
`c` and clock `now`, `SetWebRTCConnected p c` sets `IsWatching` to `c`; when `c` is true
`WatchingSince` is `now` and `NotWatchingSince` is unset, when `c` is false
`NotWatchingSince` is `now` and `WatchingSince` is unset; `IsConnected`, `ConnectedSince`,
`NotConnectedSince` and the signaling peer are as before; the emissions grow by exactly
one state_changed. -/
theorem C17_set_webrtc_connected (m : SingleSessionManager) (p : WebRTCPeer) (c : Bool)
    (now : Nat) (hp : m.session.webrtcPeer = p) :
    let m1 := SingleSession.SetWebRTCConnected m p c now
    m1.session.state.IsWatching = c
    ∧ (c = true → m1.session.state.WatchingSince = some now
        ∧ m1.session.state.NotWatchingSince = none)
    ∧ (c = false → m1.session.state.NotWatchingSince = some now
        ∧ m1.session.state.WatchingSince = none)
    ∧ (m1.session.state.WatchingSince.isSome ≠ m1.session.state.NotWatchingSince.isSome)
    ∧ m1.session.state.IsConnected = m.session.state.IsConnected
    ∧ m1.session.state.ConnectedSince = m.session.state.ConnectedSince
    ∧ m1.session.state.NotConnectedSince = m.session.state.NotConnectedSince
    ∧ m1.session.websocketPeer = m.session.websocketPeer
    ∧ m1.emitted = m.emitted ++ [{ event := "state_changed", payload := [.session .own] }]
    ∧ countEvent "state_changed" m1.emitted = countEvent "state_changed" m.emitted + 1 := by
  cases c <;>
    simp [SingleSession.SetWebRTCConnected, SingleSessionManager.emit, hp, countEvent,
      List.filter_append]

/-- C17 on a fresh manager whose session got the streaming peer 1. -/
theorem C17_set_webrtc_connected_witness :
    (SingleSession.SetWebRTCConnected
        (SingleSession.SetWebRTCPeer (NewSingleSessionManager "secret") (some 1))
        (some 1) true 10).session.state.IsWatching = true :=
  (C17_set_webrtc_connected
    (SingleSession.SetWebRTCPeer (NewSingleSessionManager "secret") (some 1))
    (some 1) true 10 rfl).1

/-- C18, evaluated on the code: the session of a fresh manager has the streaming peer 1;
`SetWebRTCConnected` for the other peer 2 leaves the watching fields as they were and
still emits state_changed, the call of `Emit` standing after the guarded block. -/
theorem C18_stale_peer_still_emits :
    (SingleSession.SetWebRTCConnected
        (SingleSession.SetWebRTCPeer (NewSingleSessionManager "secret") (some 1))
        (some 2) true 10).session.state
      = (SingleSession.SetWebRTCPeer (NewSingleSessionManager "secret") (some 1)).session.state
    ∧ (SingleSession.SetWebRTCConnected
        (SingleSession.SetWebRTCPeer (NewSingleSessionManager "secret") (some 1))
        (some 2) true 10).emitted
      = [{ event := "state_changed", payload := [.session .own] }]
    ∧ (SingleSession.SetWebRTCPeer (NewSingleSessionManager "secret") (some 1)).emitted
      = [] := by
  refine ⟨?_, ?_, ?_⟩ <;> rfl

/-! ## Claims on broadcast and settings -/

/-- C20. For every manager state, session argument and mutator `f`: when `f` reports a
change of the copy it got, `Settings` afterwards returns that copy and the emissions grow
by exactly one settings_changed carrying the session argument, the new settings and the
old settings; when `f` reports no change, the manager is left as it was, whatever `f`
wrote into the copy, so `Settings` returns the old settings and nothing is emitted. -/
theorem C20_update_settings (m : SingleSessionManager) (session : SessionRef)
    (f : Settings → Settings × Bool) :
    ((f m.Settings).2 = true →
        (m.UpdateSettingsFunc session f).Settings = (f m.Settings).1
        ∧ (m.UpdateSettingsFunc session f).emitted = m.emitted ++
            [{ event := "settings_changed"
               payload := [.session session, .settings (f m.Settings).1,
                           .settings m.Settings] }]
        ∧ countEvent "settings_changed" (m.UpdateSettingsFunc session f).emitted
            = countEvent "settings_changed" m.emitted + 1)
    ∧ ((f m.Settings).2 = false →
        m.UpdateSettingsFunc session f = m
        ∧ (m.UpdateSettingsFunc session f).Settings = m.Settings
        ∧ (m.UpdateSettingsFunc session f).emitted = m.emitted) := by
  constructor
  · intro h
    have h2 : (f m.settings).2 = true := h
    simp [SingleSessionManager.UpdateSettingsFunc, SingleSessionManager.Settings,
      SingleSessionManager.emit, h2, countEvent, List.filter_append]
  · intro h
    have h2 : (f m.settings).2 = false := h
    simp [SingleSessionManager.UpdateSettingsFunc, h2]

/-- C20 on a fresh manager: a mutator that turns private mode on and reports the change,
and one that writes the same and reports no change. -/
theorem C20_update_settings_witness :
    ((NewSingleSessionManager "secret").UpdateSettingsFunc .own
        (fun s => ({ s with PrivateMode := true }, true))).Settings.PrivateMode = true
    ∧ ((NewSingleSessionManager "secret").UpdateSettingsFunc .own
        (fun s => ({ s with PrivateMode := true }, false))).Settings.PrivateMode = false := by
  have h1 := ((C20_update_settings (NewSingleSessionManager "secret") .own
    (fun s => ({ s with PrivateMode := true }, true))).1 rfl).1
  have h2 := ((C20_update_settings (NewSingleSessionManager "secret") .own
    (fun s => ({ s with PrivateMode := true }, false))).2 rfl).2.1
  exact ⟨by rw [h1], by rw [h2]; rfl⟩

/-- A call other than the attach of a nil peer keeps: a connected session records a
peer. -/
theorem step_connected_has_peer (m : SingleSessionManager) (c : AgentCall)
    (hc : ∀ now, c ≠ .ConnectWebSocketPeer none now)
    (h : m.session.state.IsConnected = true → m.session.websocketPeer ≠ none) :
    (m.step c).session.state.IsConnected = true → (m.step c).session.websocketPeer ≠ none := by
  cases c with
  | Create _ _ => exact h
  | Update _ _ => exact h
  | Delete _ => exact h
  | Disconnect id =>
    simp only [SingleSessionManager.step, SingleSessionManager.Disconnect]
    split_ifs <;> exact h
  | SetCursor _ _ => exact h
  | PopCursors => exact h
  | Broadcast event payload exclude =>
    simp only [SingleSessionManager.step, SingleSessionManager.Broadcast, SingleSession.Send]
    split_ifs
    · exact h
    · cases m.session.websocketPeer <;> exact h
    · exact h
  | AdminBroadcast event payload exclude =>
    simp only [SingleSessionManager.step, SingleSessionManager.AdminBroadcast,
      SingleSessionManager.Broadcast, SingleSession.Send]
    split_ifs
    · exact h
    · cases m.session.websocketPeer <;> exact h
    · exact h
  | InactiveCursorsBroadcast _ _ _ => exact h
  | On _ => exact h
  | UpdateSettingsFunc session f =>
    simp only [SingleSessionManager.step, SingleSessionManager.UpdateSettingsFunc]
    split_ifs <;> exact h
  | CookieSetToken _ => exact h
  | CookieClearToken => exact h
  | Read => exact h
  | SetAsHost => exact h
  | SetAsHostBy _ => exact h
  | ClearHost => exact h
  | SessionSetCursor _ => exact h
  | ConnectWebSocketPeer peer now =>
    cases peer with
    | none => exact absurd rfl (hc now)
    | some a => intro _; simp [SingleSessionManager.step, SingleSession.ConnectWebSocketPeer,
        SingleSessionManager.emit]
  | DisconnectWebSocketPeer peer delayed now =>
    simp only [SingleSessionManager.step, SingleSession.DisconnectWebSocketPeer]
    split_ifs
    · exact h
    · exact h
    · intro hcon; simp [SingleSession.disconnectNow, SingleSessionManager.emit] at hcon
  | GraceTimerFires i now =>
    simp only [SingleSessionManager.step, SingleSession.graceTimerFires]
    cases m.timers.get? i with
    | none => exact h
    | some t =>
      simp only [SingleSession.graceTimerBody]
      split_ifs
      · intro hcon; simp [SingleSession.disconnectNow, SingleSessionManager.emit] at hcon
      · exact h
  | DestroyWebSocketPeer reason now =>
    intro hcon
    simp [SingleSessionManager.step, SingleSession.DestroyWebSocketPeer,
      SingleSessionManager.emit] at hcon
  | Send event payload =>
    simp only [SingleSessionManager.step, SingleSession.Send]
    cases m.session.websocketPeer <;> exact h
  | SetWebRTCPeer _ => exact h
  | SetWebRTCConnected peer connected now =>
    simp only [SingleSessionManager.step, SingleSession.SetWebRTCConnected,
      SingleSessionManager.emit]
    split_ifs <;> exact h

theorem runCalls_connected_has_peer (calls : List AgentCall) :
    ∀ (m : SingleSessionManager),
      (∀ c ∈ calls, ∀ now, c ≠ .ConnectWebSocketPeer none now) →
      (m.session.state.IsConnected = true → m.session.websocketPeer ≠ none) →
      (runCalls m calls).session.state.IsConnected = true →
      (runCalls m calls).session.websocketPeer ≠ none := by
  induction calls with
  | nil => intro m _ h; exact h
  | cons c rest ih =>
    intro m hcalls h
    have hrun : runCalls m (c :: rest) = runCalls (m.step c) rest := rfl
    rw [hrun]
    exact ih (m.step c) (fun o ho => hcalls o (List.mem_cons_of_mem _ ho))
      (step_connected_has_peer m c (hcalls c (List.mem_cons_self _ _)) h)

/-- C19. For every manager state, event, payload and exclusion list: `Broadcast` makes
exactly one call, `Send(event, payload)` on the recorded signaling peer, when the session
is connected, records a peer and "agent" is not excluded; it makes no call when the session
is not connected or "agent" is excluded; in every case it changes nothing but the log of
peer calls (session, settings, cursors, emissions and goroutines stay). `AdminBroadcast`
does the same. In every state reached from a fresh manager by calls none of which attaches
a nil peer, a connected session records a peer, so there the event is delivered once
whenever the session is connected and not excluded. -/
theorem C19_broadcast_reaches_connected_agent (m : SingleSessionManager)
    (event payload : String) (exclude : List String) :
    (∀ peer, m.session.state.IsConnected = true → "agent" ∉ exclude →
        m.session.websocketPeer = some peer →
        (m.Broadcast event payload exclude).peerLog
          = m.peerLog ++ [PeerCall.Send peer event payload])
    ∧ (m.session.state.IsConnected = false ∨ "agent" ∈ exclude →
        (m.Broadcast event payload exclude).peerLog = m.peerLog)
    ∧ (m.Broadcast event payload exclude
        = { m with peerLog := (m.Broadcast event payload exclude).peerLog })
    ∧ (m.Broadcast event payload exclude).session = m.session
    ∧ (m.Broadcast event payload exclude).emitted = m.emitted
    ∧ m.AdminBroadcast event payload exclude = m.Broadcast event payload exclude
    ∧ (∀ (token : String) (calls : List AgentCall),
        (∀ c ∈ calls, ∀ now, c ≠ .ConnectWebSocketPeer none now) →
        m = runCalls (NewSingleSessionManager token) calls →
        m.session.state.IsConnected = true → "agent" ∉ exclude →
        ∃ peer, m.session.websocketPeer = some peer
          ∧ (m.Broadcast event payload exclude).peerLog
              = m.peerLog ++ [PeerCall.Send peer event payload]) := by
  have hany : (exclude.any (fun ex => decide (ex = "agent")) = true) ↔ "agent" ∈ exclude := by
    simp [List.any_eq_true]
  have hsend : ∀ peer, m.session.state.IsConnected = true → "agent" ∉ exclude →
      m.session.websocketPeer = some peer →
      (m.Broadcast event payload exclude).peerLog
        = m.peerLog ++ [PeerCall.Send peer event payload] := by
    intro peer hcon hex hpeer
    have hex2 : ¬ (exclude.any (fun ex => decide (ex = "agent")) = true) :=
      fun e => hex (hany.mp e)
    simp [SingleSessionManager.Broadcast, SingleSession.State, hcon, hex2,
      SingleSession.Send, hpeer]
  have hframe : m.Broadcast event payload exclude
      = { m with peerLog := (m.Broadcast event payload exclude).peerLog } := by
    simp only [SingleSessionManager.Broadcast, SingleSession.Send]
    split_ifs
    · rfl
    · cases m.session.websocketPeer <;> rfl
    · rfl
  refine ⟨hsend, ?_, hframe, ?_, ?_, rfl, ?_⟩
  · intro h
    rcases h with h | h
    · simp [SingleSessionManager.Broadcast, SingleSession.State, h]
    · have h2 := hany.mpr h
      simp only [SingleSessionManager.Broadcast, h2, if_true]
      split_ifs <;> rfl
  · rw [hframe]
  · rw [hframe]
  · intro token calls hcalls hm hcon hex
    have hinv := runCalls_connected_has_peer calls (NewSingleSessionManager token) hcalls
      (by intro h0; simp [NewSingleSessionManager, SessionState.zero] at h0)
    rw [← hm] at hinv
    cases hpeer : m.session.websocketPeer with
    | none => exact absurd hpeer (hinv hcon)
    | some peer => exact ⟨peer, rfl, hsend peer hcon hex hpeer⟩

/-- C19 on a fresh manager to which peer 1 was attached: a broadcast that excludes only
"guest" is sent once to peer 1, and one that excludes "agent" is sent to nobody. -/
theorem C19_broadcast_reaches_connected_agent_witness :
    ((SingleSession.ConnectWebSocketPeer (NewSingleSessionManager "secret") (some 1)
        10).Broadcast "system/init" "hello" ["guest"]).peerLog
      = [PeerCall.Send 1 "system/init" "hello"]
    ∧ ((SingleSession.ConnectWebSocketPeer (NewSingleSessionManager "secret") (some 1)
        10).Broadcast "system/init" "hello" ["guest", "agent"]).peerLog = [] :=
  ⟨(C19_broadcast_reaches_connected_agent
      (SingleSession.ConnectWebSocketPeer (NewSingleSessionManager "secret") (some 1) 10)
      "system/init" "hello" ["guest"]).1 1 rfl (by decide) rfl,
    (C19_broadcast_reaches_connected_agent
      (SingleSession.ConnectWebSocketPeer (NewSingleSessionManager "secret") (some 1) 10)
      "system/init" "hello" ["guest", "agent"]).2.1 (Or.inr (by decide))⟩

/-! ## Claims on shutdown and on composite gestures -/

/-- C21, refuted as stated: in the trace of `Shutdown` on the macOS example manager the
wait for the maintenance task does not come before the tear-down of the clipboard bridge
(the tear-down is the second step, the wait the third). -/
theorem C21_clipboard_teardown_precedes_wait :
    ¬ (List.indexOf DesktopEvent.WaitGroupWait stuckInputManager.Shutdown.2.trace
        < List.indexOf DesktopEvent.ReplaceClipboardCommand
            stuckInputManager.Shutdown.2.trace) := by
  decide

/-- C21, amended. For every manager, `Shutdown` appends to the trace exactly: the close of
the shutdown channel, the tear-down of the clipboard bridge, the wait for the maintenance
task, the shutdown of the backend, in this order; it returns nil and assigns no field of
the manager. -/
theorem C21_shutdown_order (m : DesktopManagerCtx) :
    m.Shutdown.2.trace
      = m.trace ++ [.CloseShutdown, .ReplaceClipboardCommand, .WaitGroupWait,
                    .BackendShutdown]
    ∧ m.Shutdown.2.trace.getLast? = some .BackendShutdown
    ∧ m.Shutdown.1 = none
    ∧ m.Shutdown.2 = { m with trace := m.Shutdown.2.trace } := by
  have htrace : m.Shutdown.2.trace
      = m.trace ++ [.CloseShutdown, .ReplaceClipboardCommand, .WaitGroupWait,
                    .BackendShutdown] := by
    simp [DesktopManagerCtx.Shutdown, DesktopManagerCtx.log]
  refine ⟨htrace, ?_, rfl, rfl⟩
  rw [htrace]
  simp

/-- The trace of the loop of `KeyPress`: one `KeyDown` per code of a prefix of the list,
the whole list when no error is returned and a non-empty prefix otherwise. -/
theorem pressKeys_trace (xf : XorgFunctions) (clock : Nat → Nat) (codes : List Nat) :
    ∀ (m : DesktopManagerCtx) (i : Nat),
      ∃ pressed : List Nat, pressed <+: codes
        ∧ (DesktopManagerCtx.pressKeys xf clock m codes i).2.trace
            = m.trace ++ pressed.map DesktopEvent.BackendKeyDown
        ∧ ((DesktopManagerCtx.pressKeys xf clock m codes i).1 = none → pressed = codes)
        ∧ ((DesktopManagerCtx.pressKeys xf clock m codes i).1 ≠ none → pressed ≠ []) := by
  induction codes with
  | nil =>
    intro m i
    exact ⟨[], List.prefix_refl _, by simp [DesktopManagerCtx.pressKeys],
      fun _ => rfl, fun h => absurd rfl h⟩
  | cons code rest ih =>
    intro m i
    simp only [DesktopManagerCtx.pressKeys]
    cases hr : (m.KeyDown xf code (clock i)).1 with
    | some err =>
      refine ⟨[code], ?_, ?_, ?_, ?_⟩
      · exact List.prefix_iff_eq_append.mpr (by simp)
      · simp [DesktopManagerCtx.KeyDown, DesktopManagerCtx.log]
      · intro h; simp at h
      · intro _; simp
    | none =>
      obtain ⟨pressed, hpre, htrace, hnone, hsome⟩ := ih (m.KeyDown xf code (clock i)).2 (i + 1)
      refine ⟨code :: pressed, ?_, ?_, ?_, ?_⟩
      · exact (List.prefix_cons_inj code).mpr hpre
      · simp only [htrace]
        simp [DesktopManagerCtx.KeyDown, DesktopManagerCtx.log]
      · intro h; rw [hnone h]
      · intro _; simp

/-- The loop of `KeyPress` stops at the first failing `KeyDown` and returns its error. -/
theorem pressKeys_first_error (xf : XorgFunctions) (clock : Nat → Nat) (before : List Nat) :
    ∀ (m : DesktopManagerCtx) (i : Nat) (code : Nat) (after : List Nat) (err : BackendError),
      (DesktopManagerCtx.pressKeys xf clock m before i).1 = none →
      ((DesktopManagerCtx.pressKeys xf clock m before i).2.KeyDown xf code
          (clock (i + before.length))).1 = some err →
      DesktopManagerCtx.pressKeys xf clock m (before ++ code :: after) i
        = (some err, ((DesktopManagerCtx.pressKeys xf clock m before i).2.KeyDown xf code
            (clock (i + before.length))).2) := by
  induction before with
  | nil =>
    intro m i code after err _ h
    simp only [DesktopManagerCtx.pressKeys, List.nil_append, List.length_nil,
      Nat.add_zero] at h ⊢
    rw [h]
  | cons b rest ih =>
    intro m i code after err h1 h2
    simp only [DesktopManagerCtx.pressKeys, List.cons_append] at h1 h2 ⊢
    cases hb : (m.KeyDown xf b (clock i)).1 with
    | some e => rw [hb] at h1; simp at h1
    | none =>
      rw [hb] at h1 h2
      simp only [] at h1 h2 ⊢
      have hlen : i + (b :: rest).length = (i + 1) + rest.length := by
        simp only [List.length_cons]; omega
      rw [hlen] at h2 ⊢
      exact ih _ (i + 1) code after err h1 h2

/-- The loop of `KeyPress` keeps a Darwin backend a Darwin backend. -/
theorem pressKeys_darwin (xf : XorgFunctions) (clock : Nat → Nat) (codes : List Nat) :
    ∀ (m : DesktopManagerCtx) (i : Nat) (d : DarwinBackend), m.backend = .darwin d →
      ∃ d2, (DesktopManagerCtx.pressKeys xf clock m codes i).2.backend = .darwin d2 := by
  induction codes with
  | nil => intro m i d hd; exact ⟨d, hd⟩
  | cons code rest ih =>
    intro m i d hd
    have hk : (m.KeyDown xf code (clock i)).2.backend = .darwin (d.KeyDown code (clock i)).2 := by
      simp [DesktopManagerCtx.KeyDown, DesktopManagerCtx.log, Backend.KeyDown, hd]
    simp only [DesktopManagerCtx.pressKeys]
    cases (m.KeyDown xf code (clock i)).1 with
    | some err => exact ⟨_, hk⟩
    | none => exact ih _ (i + 1) _ hk

/-- C22. For every manager, every behaviour of the Xorg input functions, every clock and
every list of key codes, `KeyPress` appends to the trace exactly: one `ResetKeys`, one
`KeyDown` for each code of a prefix of the list in order, one `ResetKeys`. The prefix is
the whole list when nil is returned. When the `KeyDown` of a code fails after those of the
codes before it succeeded, its error is returned and the prefix ends with that code. With
the Darwin backend both registries are empty when `KeyPress` returns. -/
theorem C22_key_press_resets_around (m : DesktopManagerCtx) (xf : XorgFunctions)
    (clock : Nat → Nat) (codes : List Nat) :
    (∃ pressed : List Nat, pressed <+: codes
        ∧ (m.KeyPress xf clock codes).2.trace
            = m.trace ++ [.BackendResetKeys] ++ pressed.map DesktopEvent.BackendKeyDown
                ++ [.BackendResetKeys]
        ∧ ((m.KeyPress xf clock codes).1 = none → pressed = codes)
        ∧ ((m.KeyPress xf clock codes).1 ≠ none → pressed ≠ []))
    ∧ (∀ (before : List Nat) (code : Nat) (after : List Nat) (err : BackendError),
        codes = before ++ code :: after →
        (DesktopManagerCtx.pressKeys xf clock (m.ResetKeys xf) before 0).1 = none →
        ((DesktopManagerCtx.pressKeys xf clock (m.ResetKeys xf) before 0).2.KeyDown xf code
            (clock before.length)).1 = some err →
        (m.KeyPress xf clock codes).1 = some err
        ∧ (m.KeyPress xf clock codes).2.trace
            = m.trace ++ [.BackendResetKeys]
                ++ (before ++ [code]).map DesktopEvent.BackendKeyDown
                ++ [.BackendResetKeys])
    ∧ (∀ d, m.backend = .darwin d →
        ∃ d2, (m.KeyPress xf clock codes).2.backend = .darwin d2
          ∧ d2.debounceKey = [] ∧ d2.debounceButton = []) := by
  refine ⟨?_, ?_, ?_⟩
  · obtain ⟨pressed, hpre, htrace, hnone, hsome⟩ :=
      pressKeys_trace xf clock codes (m.ResetKeys xf) 0
    refine ⟨pressed, hpre, ?_, hnone, hsome⟩
    simp only [DesktopManagerCtx.KeyPress, DesktopManagerCtx.ResetKeys,
      DesktopManagerCtx.log] at htrace ⊢
    simp [htrace]
  · intro before code after err hcodes hbefore herr
    have h0 : clock before.length = clock (0 + before.length) := by simp
    rw [h0] at herr
    have hrun := pressKeys_first_error xf clock before (m.ResetKeys xf) 0 code after err
      hbefore herr
    obtain ⟨pressed, _, htrace, hnone, _⟩ :=
      pressKeys_trace xf clock before (m.ResetKeys xf) 0
    have hp : pressed = before := hnone hbefore
    subst hp
    subst hcodes
    refine ⟨?_, ?_⟩
    · simp only [DesktopManagerCtx.KeyPress, hrun]
    · simp only [DesktopManagerCtx.KeyPress, hrun]
      simp only [DesktopManagerCtx.ResetKeys, DesktopManagerCtx.KeyDown,
        DesktopManagerCtx.log] at htrace ⊢
      simp [htrace]
  · intro d hd
    have hreset : ∀ (n : DesktopManagerCtx) (e : DarwinBackend), n.backend = .darwin e →
        (n.ResetKeys xf).backend = .darwin e.ResetKeys := by
      intro n e he
      simp [DesktopManagerCtx.ResetKeys, DesktopManagerCtx.log, Backend.ResetKeys, he]
    obtain ⟨d1, hd1⟩ := pressKeys_darwin xf clock codes (m.ResetKeys xf) 0 _ (hreset m d hd)
    exact ⟨d1.ResetKeys, hreset _ d1 hd1, rfl, rfl⟩

/-- C22 on the fresh macOS manager with the codes 97, 12345, 98, the second of which has no
native key: the error of its `KeyDown` is returned and 98 is not pressed. -/
theorem C22_key_press_resets_around_witness :
    (freshDarwinManager.KeyPress idleXorgFunctions (fun i => i) [97, 12345, 98]).1
        = some (.unknownKeycode 12345)
    ∧ (freshDarwinManager.KeyPress idleXorgFunctions (fun i => i) [97, 12345, 98]).2.trace
        = freshDarwinManager.trace ++ [.BackendResetKeys]
            ++ ([97] ++ [12345]).map DesktopEvent.BackendKeyDown ++ [.BackendResetKeys] :=
  (C22_key_press_resets_around freshDarwinManager idleXorgFunctions (fun i => i)
    [97, 12345, 98]).2.1 [97] 12345 [98] (.unknownKeycode 12345) rfl (by decide) (by decide)

/-! ## Claims on the Darwin input methods -/

/-- C23, evaluated on the code: the backend pressed the key 97 and the left button;
`ResetKeys` then issues the release of the key "a" and nothing else, so no release of the
left button, and empties both registries. The same through `ButtonPress` of the manager:
after it returns the log holds the press of the left button and no release. -/
theorem C23_reset_keys_releases_no_button :
    ((DarwinBackend.NewBackend.KeyDown 97 0).2.ButtonDown 1 0).2.debounceButton = [(1, 0)]
    ∧ ((DarwinBackend.NewBackend.KeyDown 97 0).2.ButtonDown 1 0).2.ResetKeys.robot
        = [.KeyToggle "a" "down", .Toggle "left" "down", .KeyToggle "a" "up"]
    ∧ ((DarwinBackend.NewBackend.KeyDown 97 0).2.ButtonDown 1 0).2.ResetKeys.debounceButton
        = []
    ∧ (freshDarwinManager.ButtonPress idleXorgFunctions 1 0).2.backend
        = .darwin { DarwinBackend.NewBackend with robot := [.Toggle "left" "down"] } := by
  refine ⟨?_, ?_, ?_, ?_⟩ <;> decide

/-- C24, evaluated on the code: on a fresh backend `ButtonDown 9` returns the
unknown-button error and leaves 9 in the pressed-button registry, a following `ButtonUp 9`
returns the same error and removes it; `KeyDown 12345` returns the unknown-keycode error
and leaves 12345 in the pressed-key registry; none of the calls issues an action. -/
theorem C24_unknown_code_touches_registry :
    DarwinBackend.NewBackend.ButtonDown 9 5
      = (some (.unknownButtonCode 9),
         { DarwinBackend.NewBackend with debounceButton := [(9, 5)] })
    ∧ (DarwinBackend.NewBackend.ButtonDown 9 5).2.ButtonUp 9
      = (some (.unknownButtonCode 9), DarwinBackend.NewBackend)
    ∧ DarwinBackend.NewBackend.KeyDown 12345 5
      = (some (.unknownKeycode 12345),
         { DarwinBackend.NewBackend with debounceKey := [(12345, 5)] })
    ∧ (DarwinBackend.NewBackend.KeyDown 12345 5).2.KeyUp 12345
      = (some (.unknownKeycode 12345), DarwinBackend.NewBackend) := by
  refine ⟨?_, ?_, ?_, ?_⟩ <;> decide

theorem mapGet_some_mem {κ ν : Type} [DecidableEq κ] (m : List (κ × ν)) (k : κ) (v : ν)
    (h : mapGet m k = some v) : (k, v) ∈ m := by
  induction m with
  | nil => simp [mapGet] at h
  | cons e rest ih =>
    simp only [mapGet] at h
    by_cases hk : e.1 = k
    · simp only [hk, if_true, Option.some.injEq] at h
      have he : e = (k, v) := Prod.ext hk h
      simp [he]
    · simp only [hk, if_false] at h
      exact List.mem_cons_of_mem _ (ih h)

set_option maxRecDepth 100000 in
/-- No entry of the translation table maps to the empty string. -/
theorem keymap_values_nonempty : ∀ e ∈ keymap, e.2 ≠ "" := by
  decide

/-- The function `convertKeycode` returns the empty string exactly for the codes without an
entry in the table. -/
theorem convertKeycode_empty_iff (code : Nat) :
    convertKeycode code = "" ↔ mapGet keymap code = none := by
  unfold convertKeycode
  cases h : mapGet keymap code with
  | none => simp
  | some key =>
    have hne := keymap_values_nonempty (code, key) (mapGet_some_mem keymap code key h)
    simp only [reduceCtorEq, iff_false]
    exact hne

/-- C25, refuted as stated: the code 12345 has no entry in the table, and on a fresh backend
`KeyUp 12345` does not fail with the unknown-keycode error (it fails with not-pressed). -/
theorem C25_key_up_reports_not_pressed_first :
    ¬ (convertKeycode 12345 = "" →
        (DarwinBackend.NewBackend.KeyUp 12345).1 = some (.unknownKeycode 12345)) := by
  decide

/-- C25, amended. For every backend state `d` and clock `now`: a code without an entry in
the table (for which `convertKeycode` returns the empty string) makes `KeyDown` and `KeyUp`
fail in every state; when the code is not recorded as pressed, `KeyDown` fails with the
unknown-keycode error and `KeyUp` with the not-pressed error. A code with an entry makes
`KeyDown` succeed when it is not recorded as pressed and `KeyUp` succeed when it is. -/
theorem C25_keycode_translation_errors (d : DarwinBackend) (code now : Nat) :
    (convertKeycode code = "" ↔ mapGet keymap code = none)
    ∧ (convertKeycode code = "" →
        (d.KeyDown code now).1 ≠ none ∧ (d.KeyUp code).1 ≠ none
        ∧ (mapGet d.debounceKey code = none →
            (d.KeyDown code now).1 = some (.unknownKeycode code)
            ∧ (d.KeyUp code).1 = some (.keyNotPressed code)))
    ∧ (convertKeycode code ≠ "" →
        (mapGet d.debounceKey code = none → (d.KeyDown code now).1 = none)
        ∧ (mapGet d.debounceKey code ≠ none → (d.KeyUp code).1 = none)) := by
  refine ⟨convertKeycode_empty_iff code, ?_, ?_⟩
  · intro hk
    refine ⟨?_, ?_, ?_⟩
    · simp only [DarwinBackend.KeyDown]
      cases mapGet d.debounceKey code <;> simp [hk]
    · simp only [DarwinBackend.KeyUp]
      cases mapGet d.debounceKey code <;> simp [hk]
    · intro hg
      simp [DarwinBackend.KeyDown, DarwinBackend.KeyUp, hg, hk]
  · intro hk
    refine ⟨?_, ?_⟩
    · intro hg
      simp [DarwinBackend.KeyDown, hg, hk]
    · intro hg
      simp only [DarwinBackend.KeyUp]
      cases hv : mapGet d.debounceKey code with
      | none => exact absurd hv hg
      | some _ => simp [hk]

/-- C25, amended, on a fresh backend: the code 12345 without an entry, and the code 97 of
the key "a", pressed and released. -/
theorem C25_keycode_translation_errors_witness :
    (DarwinBackend.NewBackend.KeyDown 12345 5).1 = some (.unknownKeycode 12345)
    ∧ (DarwinBackend.NewBackend.KeyDown 97 5).1 = none
    ∧ ((DarwinBackend.NewBackend.KeyDown 97 5).2.KeyUp 97).1 = none :=
  ⟨(((C25_keycode_translation_errors DarwinBackend.NewBackend 12345 5).2.1
      (by decide)).2.2 rfl).1,
    ((C25_keycode_translation_errors DarwinBackend.NewBackend 97 5).2.2 (by decide)).1 rfl,
    ((C25_keycode_translation_errors (DarwinBackend.NewBackend.KeyDown 97 5).2 97 5).2.2
      (by decide)).2 (by decide)⟩

set_option maxRecDepth 1000000 in
/-- Setting and clearing one of the bits 1, 4, 8, 64 in an 8-bit value, bit by bit. -/
theorem modifier_bits (k : Nat) (hk : k < 256) (mod : Nat) (hmod : mod ∈ [1, 4, 8, 64]) :
    ((k ||| mod) % 256 &&& mod = mod
      ∧ (k &&& (255 ^^^ (mod % 256))) % 256 &&& mod = 0)
    ∧ ∀ b ∈ [1, 2, 4, 8, 16, 32, 64, 128], b ≠ mod →
        ((k ||| mod) % 256 &&& b = k &&& b
          ∧ (k &&& (255 ^^^ (mod % 256))) % 256 &&& b = k &&& b) := by
  have brute : ∀ k < 256, ∀ mod ∈ [1, 4, 8, 64],
      ((k ||| mod) % 256 &&& mod = mod
        ∧ (k &&& (255 ^^^ (mod % 256))) % 256 &&& mod = 0)
      ∧ ∀ b ∈ [1, 2, 4, 8, 16, 32, 64, 128], b ≠ mod →
          ((k ||| mod) % 256 &&& b = k &&& b
            ∧ (k &&& (255 ^^^ (mod % 256))) % 256 &&& b = k &&& b) := by
    decide
  exact brute k hk mod hmod

/-- C26. For every backend state whose modifier field is a `uint8` value, and every
`active`: when `mod` is Shift, Control, Alt or Super, the bit `mod` of
`GetKeyboardModifiers` afterwards is set exactly when `active` holds, each of the other
seven bits is as before, and exactly one key action was issued; when `mod` is any other
value, the call changes nothing: the modifiers are as before and no action was issued. -/
theorem C26_set_keyboard_modifier (d : DarwinBackend) (mod : Nat) (active : Bool)
    (h8 : d.keyboardModifiers < 256) :
    (mod ∈ [ModShift, ModControl, ModAlt, ModSuper] →
        ((d.SetKeyboardModifier mod active).GetKeyboardModifiers &&& mod
            = if active then mod else 0)
        ∧ (∀ b ∈ [ModShift, ModCapsLock, ModControl, ModAlt, ModNumLock, ModMeta, ModSuper,
              ModAltGr], b ≠ mod →
            (d.SetKeyboardModifier mod active).GetKeyboardModifiers &&& b
              = d.GetKeyboardModifiers &&& b)
        ∧ (d.SetKeyboardModifier mod active).GetKeyboardModifiers < 256
        ∧ (∃ key, DarwinBackend.modifierKey mod = some key
            ∧ (d.SetKeyboardModifier mod active).robot
                = d.robot ++ [.KeyToggle key (if active then "down" else "up")]))
    ∧ (mod ∉ [ModShift, ModControl, ModAlt, ModSuper] →
        d.SetKeyboardModifier mod active = d) := by
  constructor
  · intro hmod
    have hmod2 : mod ∈ [1, 4, 8, 64] := hmod
    obtain ⟨⟨hset, hclear⟩, hother⟩ := modifier_bits d.keyboardModifiers h8 mod hmod2
    have hkey : ∃ key, DarwinBackend.modifierKey mod = some key := by
      simp only [List.mem_cons, List.mem_singleton, List.not_mem_nil, or_false] at hmod2
      rcases hmod2 with h | h | h | h <;> subst h <;> exact ⟨_, rfl⟩
    obtain ⟨key, hkey⟩ := hkey
    cases active with
    | true =>
      refine ⟨?_, ?_, ?_, key, hkey, ?_⟩
      · simpa [DarwinBackend.SetKeyboardModifier, DarwinBackend.GetKeyboardModifiers,
          DarwinBackend.call, hkey] using hset
      · intro b hb hne
        simpa [DarwinBackend.SetKeyboardModifier, DarwinBackend.GetKeyboardModifiers,
          DarwinBackend.call, hkey] using (hother b hb hne).1
      · simp only [DarwinBackend.SetKeyboardModifier, DarwinBackend.GetKeyboardModifiers,
          DarwinBackend.call, hkey]
        exact Nat.mod_lt _ (by decide)
      · simp [DarwinBackend.SetKeyboardModifier, DarwinBackend.call, hkey]
    | false =>
      refine ⟨?_, ?_, ?_, key, hkey, ?_⟩
      · simpa [DarwinBackend.SetKeyboardModifier, DarwinBackend.GetKeyboardModifiers,
          DarwinBackend.call, hkey] using hclear
      · intro b hb hne
        simpa [DarwinBackend.SetKeyboardModifier, DarwinBackend.GetKeyboardModifiers,
          DarwinBackend.call, hkey] using (hother b hb hne).2
      · simp only [DarwinBackend.SetKeyboardModifier, DarwinBackend.GetKeyboardModifiers,
          DarwinBackend.call, hkey]
        exact Nat.mod_lt _ (by decide)
      · simp [DarwinBackend.SetKeyboardModifier, DarwinBackend.call, hkey]
  · intro hmod
    have hnone : DarwinBackend.modifierKey mod = none := by
      simp only [List.mem_cons, List.mem_singleton, List.not_mem_nil, or_false,
        not_or] at hmod
      simp [DarwinBackend.modifierKey, hmod.1, hmod.2.1, hmod.2.2.1, hmod.2.2.2]
    simp [DarwinBackend.SetKeyboardModifier, hnone]

/-- C26 on a fresh backend: Shift on gives the bitset 1, CapsLock on is ignored. -/
theorem C26_set_keyboard_modifier_witness :
    ((DarwinBackend.NewBackend.SetKeyboardModifier ModShift true).GetKeyboardModifiers
        &&& ModShift = if true then ModShift else 0)
    ∧ DarwinBackend.NewBackend.SetKeyboardModifier ModCapsLock true
        = DarwinBackend.NewBackend :=
  ⟨((C26_set_keyboard_modifier DarwinBackend.NewBackend ModShift true (by decide)).1
      (by decide)).1,
    (C26_set_keyboard_modifier DarwinBackend.NewBackend ModCapsLock true (by decide)).2
      (by decide)⟩

/-! ## Claims on stale detaches, on requests without credential, on screen configurations -/

/-- C27. For every manager state, every peer `p` other than the recorded peer, both values
of `delayed` and every clock, `DisconnectWebSocketPeer p delayed` changes nothing: the
session with its recorded peer and state, the emissions, the sleeping goroutines and all
other fields are as before. -/
theorem C27_stale_detach_is_noop (m : SingleSessionManager) (p : WebSocketPeer)
    (delayed : Bool) (now : Nat) (hp : m.session.websocketPeer ≠ p) :
    SingleSession.DisconnectWebSocketPeer m p delayed now = m
    ∧ (SingleSession.DisconnectWebSocketPeer m p delayed now).session = m.session
    ∧ (SingleSession.DisconnectWebSocketPeer m p delayed now).emitted = m.emitted
    ∧ (SingleSession.DisconnectWebSocketPeer m p delayed now).timers = m.timers := by
  have h : SingleSession.DisconnectWebSocketPeer m p delayed now = m := by
    simp [SingleSession.DisconnectWebSocketPeer, hp]
  rw [h]
  exact ⟨rfl, rfl, rfl, rfl⟩

/-- C27 on a fresh manager to which peer 2 was attached: the delayed detach of peer 1. -/
theorem C27_stale_detach_is_noop_witness :
    SingleSession.DisconnectWebSocketPeer
        (SingleSession.ConnectWebSocketPeer (NewSingleSessionManager "secret") (some 2) 10)
        (some 1) true 20
      = SingleSession.ConnectWebSocketPeer (NewSingleSessionManager "secret") (some 2) 10 :=
  (C27_stale_detach_is_noop
    (SingleSession.ConnectWebSocketPeer (NewSingleSessionManager "secret") (some 2) 10)
    (some 1) true 20 (by decide)).1

/-- C28, refuted as stated: the manager created with the empty token accepts the request
that has no Authorization header, no token parameter and no password parameter. -/
theorem C28_empty_token_accepts_no_credential :
    ¬ (((NewSingleSessionManager "").Authenticate (requestWith "" "" "")).1 = none) := by
  decide

/-- C28, amended. For every manager and every request without credential (empty header,
empty query token, empty query password): the request is accepted exactly when the
configured token is empty; so a manager created with a non-empty token refuses it with the
invalid-token error. The token `PreRun` stores is non-empty when the flag is non-empty or
the generated string is. -/
theorem C28_no_credential_needs_empty_token (m : SingleSessionManager) (r : Request)
    (hh : r.Header "Authorization" = "") (ht : r.Query "token" = "")
    (hq : r.Query "password" = "") :
    ((m.Authenticate r).1 ≠ none ↔ m.token = "")
    ∧ (m.token ≠ "" → m.Authenticate r = (none, some .invalidToken))
    ∧ (∀ token : String, token ≠ "" →
        (NewSingleSessionManager token).Authenticate r = (none, some .invalidToken))
    ∧ (∀ flagToken newUID : String, flagToken ≠ "" ∨ newUID ≠ "" →
        agentServe.PreRun flagToken newUID ≠ ""
        ∧ (NewSingleSessionManager (agentServe.PreRun flagToken newUID)).Authenticate r
            = (none, some .invalidToken)) := by
  have hmain : ∀ n : SingleSessionManager, n.token ≠ "" →
      n.Authenticate r = (none, some .invalidToken) := by
    intro n hn
    have hn2 : ¬ ("" = n.token) := fun e => hn e.symm
    simp [SingleSessionManager.Authenticate, hh, ht, hq, hn2]
  refine ⟨?_, hmain m, ?_, ?_⟩
  · by_cases hm : m.token = ""
    · simp [SingleSessionManager.Authenticate, hh, ht, hq, hm]
    · simp [hmain m hm, hm]
  · intro token htoken
    exact hmain _ htoken
  · intro flagToken newUID hne
    have hpre : agentServe.PreRun flagToken newUID ≠ "" := by
      unfold agentServe.PreRun
      by_cases hf : flagToken = ""
      · rcases hne with h | h
        · exact absurd hf h
        · simpa [hf] using h
      · simp [hf]
    exact ⟨hpre, hmain _ hpre⟩

/-- C28, amended, at the token "secret" and at a generated token. -/
theorem C28_no_credential_needs_empty_token_witness :
    (NewSingleSessionManager "secret").Authenticate (requestWith "" "" "")
        = (none, some .invalidToken)
    ∧ (NewSingleSessionManager (agentServe.PreRun "" "k3Jx9")).Authenticate
        (requestWith "" "" "") = (none, some .invalidToken) :=
  ⟨(C28_no_credential_needs_empty_token (NewSingleSessionManager "secret")
      (requestWith "" "" "") rfl rfl rfl).2.1 (by decide),
    ((C28_no_credential_needs_empty_token (NewSingleSessionManager "secret")
      (requestWith "" "" "") rfl rfl rfl).2.2.2 "" "k3Jx9" (Or.inr (by decide))).2⟩

/-- The filter of the code skips exactly the rates the spec does not keep. -/
theorem irrelevantRate_eq (rate : Int) : irrelevantRate rate = !specKeptRate rate := by
  unfold irrelevantRate specKeptRate
  by_cases h30 : rate > 30
  · have hmod : Int.tmod rate 10 = rate % 10 := Int.tmod_eq_emod (by omega) (by omega)
    rw [hmod]
    by_cases h60 : rate > 60
    · have hk : ¬ (rate ≤ 30 ∨ rate = 40 ∨ rate = 50 ∨ rate = 60) := by omega
      simp [h60, hk]
    · by_cases hm : rate % 10 = 0
      · have hk : rate ≤ 30 ∨ rate = 40 ∨ rate = 50 ∨ rate = 60 := by omega
        simp [h60, h30, hm, hk]
      · have hk : ¬ (rate ≤ 30 ∨ rate = 40 ∨ rate = 50 ∨ rate = 60) := by omega
        simp [h60, h30, hm, hk]
  · have h60 : ¬ rate > 60 := by omega
    have hk : rate ≤ 30 ∨ rate = 40 ∨ rate = 50 ∨ rate = 60 := by omega
    simp [h60, h30, hk]

theorem appendRates_eq (config : ScreenConfiguration) (rates : List (Int × Int)) :
    ∀ sizes : List ScreenSize,
      appendRates config sizes rates
        = sizes ++ (rates.filter (fun r => specKeptRate r.2)).map
            (fun r => { Width := config.Width, Height := config.Height, Rate := r.2 }) := by
  induction rates with
  | nil => intro sizes; simp [appendRates]
  | cons entry rest ih =>
    intro sizes
    simp only [appendRates, irrelevantRate_eq]
    cases hk : specKeptRate entry.2 <;> simp [hk, ih, List.filter_cons]

theorem appendConfigurations_eq (configs : List (Int × ScreenConfiguration)) :
    ∀ sizes : List ScreenSize,
      appendConfigurations sizes configs = sizes ++ specScreenSizes configs := by
  induction configs with
  | nil => intro sizes; simp [appendConfigurations, specScreenSizes]
  | cons entry rest ih =>
    intro sizes
    simp only [appendConfigurations, ih, appendRates_eq]
    simp [specScreenSizes, List.flatMap_cons]

/-- C29. For every map of backend configurations, `ScreenConfigurations` returns the list
the spec describes: per configuration and per rate entry that is at most 30 or one of 40,
50, 60 one entry with the width and the height of the configuration and that rate, and
nothing else; a rate above 60, or between 31 and 59 and no multiple of 10, is not kept. -/
theorem C29_screen_configurations_filter (m : DesktopManagerCtx)
    (configs : List (Int × ScreenConfiguration)) :
    m.ScreenConfigurations configs = specScreenSizes configs
    ∧ (m.ScreenConfigurations configs).length
        = (configs.map (fun c =>
            (c.2.Rates.filter (fun r => decide (r.2 ≤ 30 ∨ r.2 = 40 ∨ r.2 = 50 ∨ r.2 = 60))).length)).sum
    ∧ (∀ size : ScreenSize, size ∈ m.ScreenConfigurations configs ↔
        ∃ c ∈ configs, ∃ r ∈ c.2.Rates,
          (r.2 ≤ 30 ∨ r.2 = 40 ∨ r.2 = 50 ∨ r.2 = 60)
          ∧ size = { Width := c.2.Width, Height := c.2.Height, Rate := r.2 })
    ∧ (∀ rate : Int, rate > 60 ∨ (31 ≤ rate ∧ rate ≤ 59 ∧ rate % 10 ≠ 0) →
        irrelevantRate rate = true) := by
  have heq : m.ScreenConfigurations configs = specScreenSizes configs := by
    simp [DesktopManagerCtx.ScreenConfigurations, appendConfigurations_eq]
  refine ⟨heq, ?_, ?_, ?_⟩
  · rw [heq]
    have hlen : ∀ cs : List (Int × ScreenConfiguration),
        (specScreenSizes cs).length
          = (cs.map (fun c => (c.2.Rates.filter
              (fun r => decide (r.2 ≤ 30 ∨ r.2 = 40 ∨ r.2 = 50 ∨ r.2 = 60))).length)).sum := by
      intro cs
      induction cs with
      | nil => rfl
      | cons c rest ih =>
        have hcons : specScreenSizes (c :: rest)
            = (c.2.Rates.filter (fun r => specKeptRate r.2)).map
                (fun r => { Width := c.2.Width, Height := c.2.Height, Rate := r.2 })
              ++ specScreenSizes rest := by
          simp [specScreenSizes, List.flatMap_cons]
        rw [hcons, List.length_append, ih, List.length_map, List.map_cons, List.sum_cons]
        rfl
    exact hlen configs
  · intro size
    rw [heq]
    simp only [specScreenSizes, specKeptRate, List.mem_flatMap, List.mem_map,
      List.mem_filter, decide_eq_true_eq]
    constructor
    · rintro ⟨c, hc, r, ⟨hr, hk⟩, hs⟩
      exact ⟨c, hc, r, hr, hk, hs.symm⟩
    · rintro ⟨c, hc, r, hr, hk, hs⟩
      exact ⟨c, hc, r, ⟨hr, hk⟩, hs.symm⟩
  · intro rate hrate
    rw [irrelevantRate_eq]
    have hk : ¬ (rate ≤ 30 ∨ rate = 40 ∨ rate = 50 ∨ rate = 60) := by omega
    simp [specKeptRate, hk]

/-- C29 on one configuration of 1920x1080 with the rates 60, 59, 30, 75 and 25: the entries
for 60, 30 and 25 are returned. -/
theorem C29_screen_configurations_filter_witness :
    freshDarwinManager.ScreenConfigurations
        [(0, { Width := 1920, Height := 1080
               Rates := [(0, 60), (1, 59), (2, 30), (3, 75), (4, 25)] })]
      = [{ Width := 1920, Height := 1080, Rate := 60 },
         { Width := 1920, Height := 1080, Rate := 30 },
         { Width := 1920, Height := 1080, Rate := 25 }] :=
  (C29_screen_configurations_filter freshDarwinManager
    [(0, { Width := 1920, Height := 1080
           Rates := [(0, 60), (1, 59), (2, 30), (3, 75), (4, 25)] })]).1.trans (by decide)

end Neko
